import Mathlib

/-!
Verification of the grant-discovery matching pipeline.

Shallow embedding of the matching/scoring core of the repository:
* `src/src/services/grantMatcher.ts` (search orchestration, manual filtering),
* the semantic matcher module (`GrantScore`, batching, retry, dedup, boost,
  cache, threshold filtering),
* the query interpreters (`gemini.ts` / `groq.ts`, `parseGrantQuery`),
* the earlier deterministic matcher variant (`calculateMatchScore`,
  dual-threshold `searchGrants`).

External effects are made explicit: the completion service is an oracle
(`AttemptResult` per attempt), the database read is an input list of grants
together with the filter predicate the constructed PostgREST query denotes,
wall-clock time is an integer parameter, and JavaScript `Date` parsing is an
oracle `String → Int`.  JavaScript numbers are modelled as `Int` (and, where
the deterministic scorer genuinely computes fractions, as explicit
numerator/denominator pairs), strings as `String`, and JS truthiness of the
relevant values (`undefined`/`null`/`""`/`0` are falsy) is spelled out at each
use site.
-/

/-! ## JavaScript-style string helpers -/

/-- Does the first character list start with the second one?
(Helper for JS `String.prototype.includes`.) -/
def charsStartWith : List Char → List Char → Bool
  | _, [] => true
  | [], _ :: _ => false
  | c :: cs, d :: ds => c = d && charsStartWith cs ds

/-- Does the first character list contain the second one as a contiguous
run?  (Helper for JS `String.prototype.includes`.) -/
def charsContain : List Char → List Char → Bool
  | [], sub => sub.isEmpty
  | c :: cs, sub => charsStartWith (c :: cs) sub || charsContain cs sub

/-- JS `s.includes(sub)`. -/
def strContains (s sub : String) : Bool :=
  charsContain s.data sub.data

/-- JS `s.toLowerCase()` (character-wise lowering). -/
def strToLower (s : String) : String :=
  ⟨s.data.map Char.toLower⟩

/-- JS `s.trim()`: strip whitespace from both ends. -/
def strTrim (s : String) : String :=
  ⟨((s.data.dropWhile Char.isWhitespace).reverse.dropWhile Char.isWhitespace).reverse⟩

/-- Lexicographic comparison of character lists (by code point), used for
ISO date-string comparison. -/
def charsLe : List Char → List Char → Bool
  | [], _ => true
  | _ :: _, [] => false
  | a :: as, b :: bs => if a = b then charsLe as bs else decide (a < b)

/-- `a <= b` on strings, lexicographically by code point; ISO `YYYY-MM-DD`
date strings compare chronologically under this order. -/
def strLe (a b : String) : Bool :=
  charsLe a.data b.data

/-- Accumulator-based splitter behind `splitWs`; mirrors JS
`s.split(/\s+/)`: each maximal whitespace run is one separator, so a leading
or trailing run contributes an empty token.  The accumulator is `some acc`
while a token is being collected and `none` while a separator run is being
consumed. -/
def splitWsAux : List Char → Option (List Char) → List String
  | [], some acc => [String.mk acc.reverse]
  | [], none => [""]
  | c :: cs, some acc =>
    if c.isWhitespace then String.mk acc.reverse :: splitWsAux cs none
    else splitWsAux cs (some (c :: acc))
  | c :: cs, none =>
    if c.isWhitespace then splitWsAux cs none
    else splitWsAux cs (some [c])

/-- JS `s.split(/\s+/)`. -/
def splitWs (s : String) : List String :=
  splitWsAux s.data (some [])

/-- JS truthiness of a nullable string: `null`/`undefined` and `""` are
falsy. -/
def jsStrTruthy : Option String → Bool
  | none => false
  | some s => s ≠ ""

/-! ## Data model (`src/src/types/database.ts`) -/

/-- A grant record (`Grant` in `types/database.ts`).  Nullable columns are
`Option`s; numeric columns are integers. -/
structure Grant where
  id : String
  title : String
  description : Option String
  issue_area : Option String
  scope : Option String
  kpis : Option (List String)
  funding_min : Option Int
  funding_max : Option Int
  application_due_date : Option String
  eligibility_criteria : Option String
  funder_name : Option String
  funder_url : Option String
  source_url : Option String
  is_active : Bool
deriving DecidableEq, Repr

/-- Per-grant scoring result (`GrantScore` in the semantic matcher).  All
four list fields are always present (the parser substitutes defaults), which
is exactly the "never null" shape invariant. -/
structure GrantScore where
  grantId : String
  score : Int
  reasons : List String
  whyMatches : List String
  whyDoesNotMatch : List String
deriving DecidableEq, Repr

/-- Stored user preferences used for boosting (`UserMatchPreferences`). -/
structure UserMatchPreferences where
  issueAreas : Option (List String)
  preferredScope : Option String
  fundingMin : Option Int
  fundingMax : Option Int
deriving DecidableEq, Repr

/-- A grant joined with its score, as returned by `searchGrants` and
`filterGrantsManually` (`GrantWithScore` spreads the grant record). -/
structure GrantWithScore where
  grant : Grant
  matchScore : Int
  matchReasons : List String
  whyMatches : List String
  whyDoesNotMatch : List String
deriving DecidableEq, Repr

/-! ## Semantic matcher configuration (`CONFIG` in the semantic matcher) -/

def BATCH_SIZE : Nat := 8

def MIN_SCORE_THRESHOLD : Int := 30

def PREFERENCE_BOOST : Int := 5

def CACHE_TTL_MS : Int := 5 * 60 * 1000

def MAX_RETRIES : Nat := 3

/-! ## Result cache (`resultCache` and friends in the semantic matcher)

The process-local `Map` is threaded explicitly as an association list and
`Date.now()` becomes an integer parameter. -/

/-- A cache entry: the stored score list and its write timestamp. -/
structure CacheEntry where
  results : List GrantScore
  timestamp : Int
deriving DecidableEq, Repr

/-- `getCacheKey`: lower-case and trim the query, then append the candidate
count. -/
def getCacheKey (query : String) (grantCount : Nat) : String :=
  strTrim (strToLower query) ++ "_" ++ toString grantCount

/-- JS `Map.prototype.get` over the association-list model. -/
def cacheMapGet (cache : List (String × CacheEntry)) (k : String) : Option CacheEntry :=
  (cache.find? (fun p => p.1 = k)).map (·.2)

/-- JS `Map.prototype.set`: overwrite in place if the key is present
(preserving insertion order), otherwise append. -/
def cacheMapSet (cache : List (String × CacheEntry)) (k : String) (v : CacheEntry) :
    List (String × CacheEntry) :=
  if cache.any (fun p => p.1 = k) then
    cache.map (fun p => if p.1 = k then (k, v) else p)
  else
    cache ++ [(k, v)]

/-- `getCachedResults`: a stored entry is served while
`now - timestamp < CACHE_TTL_MS`; stale entries are treated as misses. -/
def getCachedResults (cache : List (String × CacheEntry)) (query : String)
    (grantCount : Nat) (now : Int) : Option (List GrantScore) :=
  match cacheMapGet cache (getCacheKey query grantCount) with
  | some cached => if now - cached.timestamp < CACHE_TTL_MS then some cached.results else none
  | none => none

/-- `cacheResults`: store the scores under the normalized key with the
current time. -/
def cacheResults (cache : List (String × CacheEntry)) (query : String)
    (grantCount : Nat) (results : List GrantScore) (now : Int) :
    List (String × CacheEntry) :=
  cacheMapSet cache (getCacheKey query grantCount) { results := results, timestamp := now }

/-! ## Batching (`batchGrants`) -/

/-- Structural worker for `batchGrants`; the fuel is an upper bound on the
list length, so it never runs out on the intended call. -/
def batchGrantsAux {α : Type} : Nat → List α → Nat → List (List α)
  | 0, _, _ => []
  | _ + 1, [], _ => []
  | fuel + 1, a :: as, n => (a :: as).take n :: batchGrantsAux fuel (as.drop (n - 1)) n

/-- `batchGrants`: slice the list into consecutive chunks of `batchSize`.
The source loops `i += batchSize` over `items.slice(i, i + batchSize)`;
for `batchSize ≥ 1` (the only use is `BATCH_SIZE = 8`) this is exactly
take/drop chunking. -/
def batchGrants {α : Type} (items : List α) (batchSize : Nat) : List (List α) :=
  batchGrantsAux items.length items batchSize

/-! ## Response parsing (`parseScoreResponse`)

`parseScoreResponse` receives the raw completion text, strips markdown
fences, runs `JSON.parse`, and accepts either a direct array or the first
array-valued property of a wrapping object.  That stringly preamble is
embedded as its outcome: `ParsedResponse.malformed` is a `JSON.parse` throw
(caught: the function returns `[]`), `ParsedResponse.objNoArray` is a
non-array value with no array-valued property (also `[]`), and
`ParsedResponse.items l` is the extracted array, whose elements have the
duck-typed item shape below. -/

/-- One element of the parsed score array, with every field optional, as the
source destructures it. `index`/`score` are JS numbers (`Int` here). -/
structure ScoreItem where
  id : Option String
  index : Option Int
  score : Option Int
  reason : Option String
  reasons : Option (List String)
  whyMatches : Option (List String)
  whyDoesNotMatch : Option (List String)
deriving DecidableEq, Repr

/-- Outcome of the `JSON.parse` + array-extraction preamble of
`parseScoreResponse`. -/
inductive ParsedResponse where
  | malformed
  | objNoArray
  | items (l : List ScoreItem)
deriving DecidableEq, Repr

/-- JS array index access `grants[i]` where `i` may be negative. -/
def listGetInt (grants : List Grant) (i : Int) : Option Grant :=
  if i < 0 then none else grants.get? i.toNat

/-- The grant-id resolution of `parseScoreResponse`: use `item.id` when
truthy, otherwise fall back to the 1-based `item.index` lookup
(`grants[item.index - 1]?.id`); an unresolved id becomes `''`
(`grantId || ''`). -/
def itemGrantId (grants : List Grant) (item : ScoreItem) : String :=
  let gid :=
    if jsStrTruthy item.id then item.id
    else
      match item.index with
      | some idx => (listGetInt grants (idx - 1)).map (·.id)
      | none => item.id
  match gid with
  | some s => s
  | none => ""

/-- `r.toLowerCase()` mentions 'not', 'concern' or 'limit' — the legacy
pros/cons splitting test. -/
def isNegativeReason (r : String) : Bool :=
  strContains (strToLower r) "not" || strContains (strToLower r) "concern" ||
    strContains (strToLower r) "limit"

/-- `item.score || 0`: absent (and JS-falsy `0`) becomes `0`. -/
def itemScoreOrZero : Option Int → Int
  | none => 0
  | some n => if n = 0 then 0 else n

/-- The per-item mapping body of `parseScoreResponse`: resolve the grant id,
reconstruct the reason lists (with legacy single-`reason` support and the
pros/cons split), clamp the score into `[0, 100]`, and substitute the
placeholder reasons. -/
def parseItem (grants : List Grant) (item : ScoreItem) : GrantScore :=
  let reasons : List String :=
    match item.reasons with
    | some rs => rs
    | none =>
      match item.reason with
      | some r => if r = "" then [] else [r]
      | none => []
  let whyM0 := item.whyMatches.getD []
  let whyD0 := item.whyDoesNotMatch.getD []
  let pair :=
    if reasons.length > 0 ∧ whyM0.length = 0 then
      reasons.foldl
        (fun p r => if isNegativeReason r then (p.1, p.2 ++ [r]) else (p.1 ++ [r], p.2))
        (whyM0, whyD0)
    else (whyM0, whyD0)
  let combinedReasons := pair.1 ++ pair.2
  { grantId := itemGrantId grants item
    score := min 100 (max 0 (itemScoreOrZero item.score))
    reasons := if combinedReasons.length > 0 then combinedReasons else ["Match analysis complete"]
    whyMatches := if pair.1.length > 0 then pair.1 else ["Potential match found"]
    whyDoesNotMatch := pair.2 }

/-- `parseScoreResponse`: `[]` on parse failure or shape mismatch, otherwise
map the items and drop entries whose grant id resolved to the falsy `''`. -/
def parseScoreResponse (resp : ParsedResponse) (grants : List Grant) : List GrantScore :=
  match resp with
  | .malformed => []
  | .objNoArray => []
  | .items l => (l.map (parseItem grants)).filter (fun s => s.grantId ≠ "")

/-! ## Batch scoring with retry (`scoreGrantBatch`) -/

/-- Outcome of one completion-service call: a response (already taken
through the parse preamble) or a thrown error carrying its message. -/
inductive AttemptResult where
  | ok (resp : ParsedResponse)
  | err (message : String)
deriving DecidableEq, Repr

/-- The rate-limit detection of the catch branch: the error message contains
`'429'` or `'rate'`. -/
def isRateLimitError (msg : String) : Bool :=
  strContains msg "429" || strContains msg "rate"

/-- The neutral fallback of `scoreGrantBatch`: score 50 for every grant in
the batch, with the degraded-analysis reason texts. -/
def neutralBatchScores (grants : List Grant) : List GrantScore :=
  grants.map (fun g =>
    { grantId := g.id
      score := 50
      reasons := ["Could not analyze - showing as potential match"]
      whyMatches := ["Could not fully analyze - shown as potential match"]
      whyDoesNotMatch := ["Analysis incomplete due to service error"] })

/-- `scoreGrantBatch`: one service call per attempt (`service retryCount`
is the result of the call made with retry counter `retryCount`); on a
rate-limit error with `retryCount < MAX_RETRIES` the same batch is retried
on the same client after a `2 ^ retryCount * 1000` ms sleep; any other
failure yields the neutral fallback.  Returns the scores together with the
list of backoff delays slept.  `userQuery`/`client`/`userPrefs` are carried
through exactly as the source passes the query, the `groqClient` and the
preferences to the recursive call. -/
def scoreGrantBatchAux (userQuery : String) (grants : List Grant) (client : Nat)
    (service : Nat → AttemptResult) (userPrefs : Option UserMatchPreferences) :
    Nat → Nat → List GrantScore × List Nat
  | fuel, retryCount =>
    match service retryCount with
    | .ok resp => (parseScoreResponse resp grants, [])
    | .err msg =>
      if isRateLimitError msg ∧ retryCount < MAX_RETRIES then
        match fuel with
        | f + 1 =>
          let delay := 2 ^ retryCount * 1000
          let r := scoreGrantBatchAux userQuery grants client service userPrefs f (retryCount + 1)
          (r.1, delay :: r.2)
        | 0 => (neutralBatchScores grants, [])
      else
        (neutralBatchScores grants, [])

/-- `scoreGrantBatch` entry point: the fuel `MAX_RETRIES - retryCount`
bounds the recursion depth; whenever the retry condition
`retryCount < MAX_RETRIES` holds the fuel is positive, so the zero-fuel
branch of the worker is unreachable and the worker is exactly the source's
recursion. -/
def scoreGrantBatch (userQuery : String) (grants : List Grant) (client : Nat)
    (service : Nat → AttemptResult) (userPrefs : Option UserMatchPreferences)
    (retryCount : Nat) : List GrantScore × List Nat :=
  scoreGrantBatchAux userQuery grants client service userPrefs
    (MAX_RETRIES - retryCount) retryCount

/-! ## Aggregation: dedup, boost, sort (`scoreGrantsSemantically`) -/

/-- JS `Map.prototype.get` for the dedup map. -/
def scoreMapGet (m : List (String × GrantScore)) (k : String) : Option GrantScore :=
  (m.find? (fun p => p.1 = k)).map (·.2)

/-- JS `Map.prototype.set` for the dedup map. -/
def scoreMapSet (m : List (String × GrantScore)) (k : String) (v : GrantScore) :
    List (String × GrantScore) :=
  if m.any (fun p => p.1 = k) then
    m.map (fun p => if p.1 = k then (k, v) else p)
  else
    m ++ [(k, v)]

/-- The dedup loop body: keep the entry with the strictly higher score
(`if (!existing || score.score > existing.score)`). -/
def dedupStep (m : List (String × GrantScore)) (s : GrantScore) :
    List (String × GrantScore) :=
  match scoreMapGet m s.grantId with
  | none => scoreMapSet m s.grantId s
  | some existing => if s.score > existing.score then scoreMapSet m s.grantId s else m

/-- Flatten-and-dedup of `scoreGrantsSemantically`: fold all scores through
the map, then take `Array.from(scoreMap.values())`. -/
def dedupScores (scores : List GrantScore) : List GrantScore :=
  (scores.foldl dedupStep []).map (·.2)

/-- `new Map(grants.map(g => [g.id, g]))` lookup: with duplicate ids the
later entry wins, so search the reversed list. -/
def grantsMapGet (grants : List Grant) (gid : String) : Option Grant :=
  grants.reverse.find? (fun g => g.id = gid)

/-- `userPrefs.issueAreas?.some(area =>
grant.issue_area?.toLowerCase().includes(area.toLowerCase()))`. -/
def issueAreaMatchesPrefs (areas : List String) (g : Grant) : Bool :=
  areas.any (fun area =>
    match g.issue_area with
    | some ia => strContains (strToLower ia) (strToLower area)
    | none => false)

/-- The per-score preference boost: +`PREFERENCE_BOOST` clamped to 100 and a
note appended to both reason lists, applied when the grant is found and its
issue area matches a preferred area. -/
def boostScore (grants : List Grant) (areas : List String) (score : GrantScore) : GrantScore :=
  match grantsMapGet grants score.grantId with
  | some grant =>
    if issueAreaMatchesPrefs areas grant then
      { score with
        score := min 100 (score.score + PREFERENCE_BOOST)
        reasons := score.reasons ++ ["✨ Matches your preferences"]
        whyMatches := score.whyMatches ++ ["✨ Matches your profile preferences"] }
    else score
  | none => score

/-- The preference-boost stage: a map over all scores, guarded by
`if (userPrefs?.issueAreas?.length)`. -/
def applyPreferenceBoost (grants : List Grant) (userPrefs : Option UserMatchPreferences)
    (scores : List GrantScore) : List GrantScore :=
  match userPrefs with
  | none => scores
  | some prefs =>
    match prefs.issueAreas with
    | none => scores
    | some areas => if areas.length > 0 then scores.map (boostScore grants areas) else scores

/-- The descending order used by `allScores.sort((a, b) => b.score - a.score)`. -/
def scoreDescOrder (a b : GrantScore) : Prop :=
  b.score ≤ a.score

instance : DecidableRel scoreDescOrder := fun a b => Int.decLe b.score a.score

/-- The cache-miss computation of `scoreGrantsSemantically`: batch, score
every batch on its round-robin client (`index % numClients`), flatten,
dedup keeping the highest score per grant id, boost by preferences, and
stably sort by descending score. `services i` is the attempt oracle for
batch `i`. -/
def scoreGrantsSemanticallyCore (userQuery : String) (grants : List Grant)
    (userPrefs : Option UserMatchPreferences) (numClients : Nat)
    (services : Nat → Nat → AttemptResult) : List GrantScore :=
  let batches := batchGrants grants BATCH_SIZE
  let allBatchResults := batches.mapIdx (fun idx batch =>
    (scoreGrantBatch userQuery batch (idx % numClients) (services idx) userPrefs 0).1)
  let allScoresRaw := allBatchResults.flatten
  let deduped := dedupScores allScoresRaw
  let boosted := applyPreferenceBoost grants userPrefs deduped
  List.insertionSort scoreDescOrder boosted

/-- `scoreGrantsSemantically`: serve a fresh cache hit, otherwise run the
core computation and store the result under the normalized key. -/
def scoreGrantsSemantically (userQuery : String) (grants : List Grant)
    (userPrefs : Option UserMatchPreferences) (numClients : Nat)
    (services : Nat → Nat → AttemptResult) (cache : List (String × CacheEntry))
    (now : Int) : List GrantScore × List (String × CacheEntry) :=
  match getCachedResults cache userQuery grants.length now with
  | some cached => (cached, cache)
  | none =>
    let allScores := scoreGrantsSemanticallyCore userQuery grants userPrefs numClients services
    (allScores, cacheResults cache userQuery grants.length allScores now)

/-- `filterByThreshold`: keep the scores at or above the threshold. -/
def filterByThreshold (scores : List GrantScore) (threshold : Int) : List GrantScore :=
  scores.filter (fun s => decide (s.score ≥ threshold))

/-! ## Candidate fetching (`fetchAllActiveGrants` in `grantMatcher.ts`)

The Supabase read is embedded as the predicate the constructed PostgREST
query denotes over an input grant list.  `.gte`/`.lte`/`.ilike` follow SQL
three-valued logic: a comparison against a `NULL` column fails the filter.
The `ORDER BY application_due_date` clause is irrelevant to the claims and
is not modelled. -/

/-- The optional hard filters accepted by `fetchAllActiveGrants`. -/
structure FetchFilters where
  issueArea : Option String
  scope : Option String
  fundingMin : Option Int
  fundingMax : Option Int
deriving DecidableEq, Repr

/-- `query.ilike(col, '%v%')` guarded by `if (filters?.issueArea)`:
case-insensitive substring match; truthiness skips `null` and `''`;
a `NULL` column fails the match. -/
def passesIlikeFilter (wanted : Option String) (column : Option String) : Bool :=
  match wanted with
  | some w =>
    if w = "" then true
    else
      match column with
      | some c => strContains (strToLower c) (strToLower w)
      | none => false
  | none => true

/-- `if (filters?.fundingMin && filters.fundingMin > 0)
query.gte('funding_max', filters.fundingMin)`: active only for a truthy,
positive requested minimum; a `NULL` `funding_max` fails the SQL `>=`. -/
def passesMinFundingFilter (fundingMin : Option Int) (g : Grant) : Bool :=
  match fundingMin with
  | some m =>
    if m ≠ 0 ∧ 0 < m then
      match g.funding_max with
      | some fm => m ≤ fm
      | none => false
    else true
  | none => true

/-- `if (filters?.fundingMax && filters.fundingMax < 500000)
query.lte('funding_min', filters.fundingMax)`: active only for a truthy
requested maximum below 500000; a `NULL` `funding_min` fails the SQL `<=`. -/
def passesMaxFundingFilter (fundingMax : Option Int) (g : Grant) : Bool :=
  match fundingMax with
  | some m =>
    if m ≠ 0 ∧ m < 500000 then
      match g.funding_min with
      | some fm => fm ≤ m
      | none => false
    else true
  | none => true

/-- `application_due_date.gte.today OR application_due_date.is.null`
(ISO date strings compare lexicographically). -/
def passesDeadlineFilter (today : String) (g : Grant) : Bool :=
  match g.application_due_date with
  | some d => strLe today d
  | none => true

/-- The full row predicate of the `fetchAllActiveGrants` query. -/
def fetchFilterPred (filters : Option FetchFilters) (today : String) (g : Grant) : Bool :=
  g.is_active &&
    passesIlikeFilter (filters.bind (·.issueArea)) g.issue_area &&
    passesIlikeFilter (filters.bind (·.scope)) g.scope &&
    passesMinFundingFilter (filters.bind (·.fundingMin)) g &&
    passesMaxFundingFilter (filters.bind (·.fundingMax)) g &&
    passesDeadlineFilter today g

/-- `fetchAllActiveGrants` over an explicit stored table. -/
def fetchAllActiveGrants (table : List Grant) (filters : Option FetchFilters)
    (today : String) : List Grant :=
  table.filter (fetchFilterPred filters today)

/-! ## Search orchestration (`searchGrants` in `grantMatcher.ts`) -/

/-- The post-scoring mapping of `searchGrants`: apply the fixed threshold of
30, then join each surviving score back to its grant (scores whose id is not
in the candidate map are dropped by the `null` filter). -/
def searchGrantsRank (grants : List Grant) (scores : List GrantScore) : List GrantWithScore :=
  let thresholdScores := filterByThreshold scores 30
  thresholdScores.filterMap (fun score =>
    match grantsMapGet grants score.grantId with
    | some grant =>
      some { grant := grant
             matchScore := score.score
             matchReasons := score.reasons
             whyMatches := score.whyMatches
             whyDoesNotMatch := score.whyDoesNotMatch }
    | none => none)

/-- `searchGrants` after the candidate fetch: empty candidates short-circuit
to `[]`; otherwise the semantic scorer runs (through the cache) and the
result is threshold-filtered and joined. -/
def searchGrants (userQuery : String) (grants : List Grant)
    (userPrefs : Option UserMatchPreferences) (numClients : Nat)
    (services : Nat → Nat → AttemptResult) (cache : List (String × CacheEntry))
    (now : Int) : List GrantWithScore × List (String × CacheEntry) :=
  if grants.length = 0 then ([], cache)
  else
    let res := scoreGrantsSemantically userQuery grants userPrefs numClients services cache now
    (searchGrantsRank grants res.1, res.2)

/-! ## Manual filtering (`filterGrantsManually` in `grantMatcher.ts`) -/

/-- The manual filter options (`ManualFilters`). -/
structure ManualFilters where
  issueArea : Option String
  scope : Option String
  fundingMin : Int
  fundingMax : Int
deriving DecidableEq, Repr

/-- JS `Math.round(a / b)` for natural `a` and positive `b`:
`floor(a / b + 1/2)`. -/
def jsRoundDiv (a b : Nat) : Nat :=
  (2 * a + b) / (2 * b)

/-- The database predicate of `filterGrantsManually` (same query pieces as
the fetcher, with plain `> 0` / `< 500000` guards). -/
def manualDbPred (filters : ManualFilters) (today : String) (g : Grant) : Bool :=
  g.is_active &&
    passesIlikeFilter filters.issueArea g.issue_area &&
    passesIlikeFilter filters.scope g.scope &&
    passesMinFundingFilter (some filters.fundingMin) g &&
    passesMaxFundingFilter (some filters.fundingMax) g &&
    passesDeadlineFilter today g

/-- Did the issue-area filter match this grant
(`filters.issueArea && grant.issue_area?.toLowerCase().includes(...)`)? -/
def manualIssueHit (filters : ManualFilters) (g : Grant) : Bool :=
  match filters.issueArea with
  | some fa =>
    fa ≠ "" &&
      (match g.issue_area with
       | some ga => strContains (strToLower ga) (strToLower fa)
       | none => false)
  | none => false

/-- Did the scope filter match this grant? -/
def manualScopeHit (filters : ManualFilters) (g : Grant) : Bool :=
  match filters.scope with
  | some fs =>
    fs ≠ "" &&
      (match g.scope with
       | some gs => strContains (strToLower gs) (strToLower fs)
       | none => false)
  | none => false

/-- `filters.fundingMin > 0 || filters.fundingMax < 500000`. -/
def manualFundingActive (filters : ManualFilters) : Bool :=
  decide (0 < filters.fundingMin) || decide (filters.fundingMax < 500000)

/-- `totalFilters` of `filterGrantsManually`. -/
def manualTotalFilters (filters : ManualFilters) : Nat :=
  (if jsStrTruthy filters.issueArea then 1 else 0) +
    (if jsStrTruthy filters.scope then 1 else 0) +
    (if manualFundingActive filters then 1 else 0)

/-- The per-grant scoring body of `filterGrantsManually`: count matched
filters, build the reason list, score proportionally (75 when no filter is
set), and floor the final score at 50. -/
def manualMatchOne (filters : ManualFilters) (g : Grant) : GrantWithScore :=
  let issueHit := manualIssueHit filters g
  let scopeHit := manualScopeHit filters g
  let fundingHit := manualFundingActive filters
  let matchCount : Nat :=
    (if issueHit then 1 else 0) + (if scopeHit then 1 else 0) + (if fundingHit then 1 else 0)
  let reasons : List String :=
    (if issueHit then ["Matches " ++ (g.issue_area.getD "") ++ " focus"] else []) ++
      (if scopeHit then [(g.scope.getD "") ++ " scope"] else []) ++
      (if fundingHit then ["Within funding range"] else [])
  let totalFilters := manualTotalFilters filters
  let score : Int :=
    if totalFilters > 0 then Int.ofNat (jsRoundDiv (matchCount * 100) totalFilters) else 75
  { grant := g
    matchScore := max 50 score
    matchReasons := if reasons.length > 0 then reasons else ["Matches your filters"]
    whyMatches := if reasons.length > 0 then reasons else ["Matches your selected filters"]
    whyDoesNotMatch :=
      if score < 100 then ["Some filter criteria may not be fully met"] else [] }

/-- `filterGrantsManually` over an explicit stored table. -/
def filterGrantsManually (filters : ManualFilters) (table : List Grant)
    (today : String) : List GrantWithScore :=
  (table.filter (manualDbPred filters today)).map (manualMatchOne filters)

/-! ## Query interpretation (`parseGrantQuery` in `gemini.ts` / `groq.ts`) -/

/-- The interpreter output (`ParsedGrantQuery`): always fully populated.
`parseConfidence` is the JS number in `[0, 1]`, kept as a rational. -/
structure ParsedGrantQuery where
  issueAreas : List String
  fundingMin : Option Int
  fundingMax : Option Int
  scope : Option String
  urgency : Option String
  deadlineBefore : Option String
  keywords : List String
  organizationType : Option String
  kpiPreferences : List String
  excludeTerms : List String
  originalQuery : String
  parseConfidence : ℚ
deriving DecidableEq, Repr

/-- The duck-typed `JSON.parse` result the success branch destructures:
every field may be absent. -/
structure RawParsedQuery where
  issueAreas : Option (List String)
  fundingMin : Option Int
  fundingMax : Option Int
  scope : Option String
  urgency : Option String
  deadlineBefore : Option String
  keywords : Option (List String)
  organizationType : Option String
  kpiPreferences : Option (List String)
  excludeTerms : Option (List String)
  parseConfidence : Option ℚ
deriving DecidableEq, Repr

/-- Outcome of the guarded interpretation call: a parsed JSON object, or any
caught failure (service error, timeout, or a `JSON.parse` throw on malformed
output). -/
inductive InterpretOutcome where
  | ok (parsed : RawParsedQuery)
  | failed
deriving DecidableEq, Repr

/-- `x || null` for a JS number: `0` is falsy. -/
def jsNumOrNull : Option Int → Option Int
  | some n => if n = 0 then none else some n
  | none => none

/-- `x || null` for a JS string: `''` is falsy. -/
def jsStrOrNull : Option String → Option String
  | some s => if s = "" then none else some s
  | none => none

/-- `x || []` for a JS array (arrays are always truthy). -/
def jsListOrEmpty : Option (List String) → List String
  | some l => l
  | none => []

/-- `parsed.parseConfidence || 0.5`: absent (and falsy `0`) becomes `0.5`. -/
def jsConfOrHalf : Option ℚ → ℚ
  | some c => if c = 0 then 1/2 else c
  | none => 1/2

/-- `parseGrantQuery`: on a successful call, normalize the parsed fields
with `||` defaults; on any caught failure, the degraded fallback criteria —
empty areas/bounds/scope, keywords = lower-cased whitespace-split tokens of
the input longer than 3 characters, confidence 0.1, original text kept.
Total in both branches — the `try`/`catch` never rethrows. -/
def parseGrantQuery (userQuery : String) : InterpretOutcome → ParsedGrantQuery
  | .ok p =>
    { issueAreas := jsListOrEmpty p.issueAreas
      fundingMin := jsNumOrNull p.fundingMin
      fundingMax := jsNumOrNull p.fundingMax
      scope := jsStrOrNull p.scope
      urgency := jsStrOrNull p.urgency
      deadlineBefore := jsStrOrNull p.deadlineBefore
      keywords := jsListOrEmpty p.keywords
      organizationType := jsStrOrNull p.organizationType
      kpiPreferences := jsListOrEmpty p.kpiPreferences
      excludeTerms := jsListOrEmpty p.excludeTerms
      originalQuery := userQuery
      parseConfidence := jsConfOrHalf p.parseConfidence }
  | .failed =>
    { issueAreas := []
      fundingMin := none
      fundingMax := none
      scope := none
      urgency := none
      deadlineBefore := none
      keywords := (splitWs (strToLower userQuery)).filter (fun w => w.length > 3)
      organizationType := none
      kpiPreferences := []
      excludeTerms := []
      originalQuery := userQuery
      parseConfidence := 1/10 }

/-! ## Deterministic matcher variant (the earlier `grantMatcher` revision)

The earlier revision of the search pipeline scores deterministically from
the interpreted criteria (`calculateMatchScore`) and applies the
dual-threshold fallback in `searchGrants`.  Its floating-point weight sums
are embedded as exact fractions (`Frac`, an unreduced numerator/denominator
pair with positive denominator); `new Date()` differences are supplied by a
`dateMs` oracle mapping the stored ISO date string to epoch milliseconds. -/

namespace Deterministic

/-- An unreduced fraction; every constructor and operation below keeps the
denominator positive. -/
structure Frac where
  num : Int
  den : Int
deriving DecidableEq, Repr

def Frac.ofInt (n : Int) : Frac := ⟨n, 1⟩

def Frac.add (a b : Frac) : Frac := ⟨a.num * b.den + b.num * a.den, a.den * b.den⟩

def Frac.mul (a b : Frac) : Frac := ⟨a.num * b.num, a.den * b.den⟩

/-- `a ≤ b` as fractions (valid for positive denominators). -/
def Frac.leB (a b : Frac) : Bool :=
  decide (a.num * b.den ≤ b.num * a.den)

/-- JS `Math.max` over fractions. -/
def Frac.maxF (a b : Frac) : Frac := if Frac.leB a b then b else a

/-- JS `Math.min` over fractions. -/
def Frac.minF (a b : Frac) : Frac := if Frac.leB a b then a else b

/-- JS `Math.round` of a fraction with positive denominator:
`floor(x + 1/2)` via Euclidean division. -/
def Frac.round (a : Frac) : Int :=
  Int.ediv (2 * a.num + a.den) (2 * a.den)

/-- `SCORING_WEIGHTS` of the deterministic matcher (0.35 / 0.25 / 0.15 /
0.10 / 0.10 / 0.05, as exact hundredths). -/
def weightIssueArea : Frac := ⟨35, 100⟩
def weightFundingRange : Frac := ⟨25, 100⟩
def weightScope : Frac := ⟨15, 100⟩
def weightDeadline : Frac := ⟨10, 100⟩
def weightKeyword : Frac := ⟨10, 100⟩
def weightUserPref : Frac := ⟨5, 100⟩

/-- `GrantWithScore` of the deterministic revision (no pros/cons split). -/
structure GrantWithScoreD where
  grant : Grant
  matchScore : Int
  matchReasons : List String
deriving DecidableEq, Repr

/-- `UserPreferences` of the deterministic revision. -/
structure UserPreferencesD where
  issueAreas : Option (List String)
  preferredScope : Option String
  fundingMin : Option Int
  fundingMax : Option Int
deriving DecidableEq, Repr

/-- Issue-area component: a criteria area matching the grant's area in
either containment direction scores the full weight; an empty criteria list
scores half weight. -/
def issueAreaComponent (g : Grant) (criteria : ParsedGrantQuery) :
    Frac × List String :=
  if criteria.issueAreas.length > 0 ∧ jsStrTruthy g.issue_area then
    let grantArea := strToLower (g.issue_area.getD "")
    match criteria.issueAreas.find? (fun area =>
        strContains grantArea (strToLower area) || strContains (strToLower area) grantArea) with
    | some _ => (weightIssueArea, ["Matches " ++ g.issue_area.getD "" ++ " focus area"])
    | none => (Frac.ofInt 0, [])
  else if criteria.issueAreas.length = 0 then
    (Frac.mul weightIssueArea ⟨5, 10⟩, [])
  else
    (Frac.ofInt 0, [])

/-- `x || Infinity` for a JS number: `none` is `Infinity` here (both the
absent field and the falsy `0` map to it). -/
def jsNumOrInf : Option Int → Option Int
  | some n => if n = 0 then none else some n
  | none => none

/-- `a <= b` where `b` may be `Infinity`. -/
def leOrInf (a : Int) (b : Option Int) : Bool :=
  match b with
  | some bv => decide (a ≤ bv)
  | none => true

/-- `a >= b` where `a` may be `Infinity`. -/
def geOrInf (a : Option Int) (b : Int) : Bool :=
  match a with
  | some av => decide (b ≤ av)
  | none => true

/-- Funding component: full weight on range overlap, half weight when the
query states no funding preference, nothing when the grant has no funding
data at all. -/
def fundingComponent (g : Grant) (criteria : ParsedGrantQuery) :
    Frac × List String :=
  if g.funding_min ≠ none ∨ g.funding_max ≠ none then
    let grantMin : Int := g.funding_min.getD 0
    let grantMax : Option Int := jsNumOrInf g.funding_max
    let queryMin : Int := criteria.fundingMin.getD 0
    let queryMax : Option Int := jsNumOrInf criteria.fundingMax
    if leOrInf grantMin queryMax && geOrInf grantMax queryMin then
      (weightFundingRange, ["Funding range fits your budget"])
    else if queryMin = 0 ∧ queryMax = none then
      (Frac.mul weightFundingRange ⟨5, 10⟩, [])
    else
      (Frac.ofInt 0, [])
  else
    (Frac.ofInt 0, [])

/-- Scope component: full weight on case-insensitive equality, half weight
when the query states no scope. -/
def scopeComponent (g : Grant) (criteria : ParsedGrantQuery) :
    Frac × List String :=
  if jsStrTruthy criteria.scope ∧ jsStrTruthy g.scope then
    if strToLower (g.scope.getD "") = strToLower (criteria.scope.getD "") then
      (weightScope, [g.scope.getD "" ++ " scope matches preference"])
    else
      (Frac.ofInt 0, [])
  else if ¬ jsStrTruthy criteria.scope then
    (Frac.mul weightScope ⟨5, 10⟩, [])
  else
    (Frac.ofInt 0, [])

/-- Deadline component: proximity-weighted inside 90 days (with a reason when
at most 30 days out), 0.3 weight beyond 90 days.  `daysUntilDue` is
`Math.floor((due - today) / 86400000)` with the date oracle. -/
def deadlineComponent (g : Grant) (dateMs : String → Int) (now : Int) :
    Frac × List String :=
  if jsStrTruthy g.application_due_date then
    let d := g.application_due_date.getD ""
    let daysUntilDue : Int := Int.ediv (dateMs d - now) 86400000
    if 0 < daysUntilDue ∧ daysUntilDue ≤ 90 then
      let proximityScore := Frac.maxF (Frac.ofInt 0)
        (Frac.add (Frac.ofInt 1) ⟨-daysUntilDue, 90⟩)
      (Frac.mul weightDeadline proximityScore,
        if daysUntilDue ≤ 30 then ["Deadline in " ++ toString daysUntilDue ++ " days"] else [])
    else if 90 < daysUntilDue then
      (Frac.mul weightDeadline ⟨3, 10⟩, [])
    else
      (Frac.ofInt 0, [])
  else
    (Frac.ofInt 0, [])

/-- Keyword component: fraction of criteria keywords found in the
concatenated grant text, capped at 1; a reason when at least two matched. -/
def keywordComponent (g : Grant) (criteria : ParsedGrantQuery) :
    Frac × List String :=
  if criteria.keywords.length > 0 then
    let grantText := strToLower
      (g.title ++ " " ++ g.description.getD "" ++ " " ++ g.eligibility_criteria.getD "")
    let matchedKeywords := criteria.keywords.filter (fun kw => strContains grantText (strToLower kw))
    if matchedKeywords.length > 0 then
      let keywordScore := Frac.minF (Frac.ofInt 1)
        ⟨Int.ofNat matchedKeywords.length, Int.ofNat criteria.keywords.length⟩
      (Frac.mul weightKeyword keywordScore,
        if 2 ≤ matchedKeywords.length then
          ["Matches keywords: " ++ String.intercalate ", " (matchedKeywords.take 2)]
        else [])
    else
      (Frac.ofInt 0, [])
  else
    (Frac.ofInt 0, [])

/-- User-preference component: half the bonus weight each for an issue-area
containment hit and a scope equality hit. -/
def userPrefComponent (g : Grant) (userPrefs : Option UserPreferencesD) :
    Frac × List String :=
  match userPrefs with
  | some prefs =>
    let prefMatch1 : Frac :=
      if (prefs.issueAreas.getD []).any (fun area =>
          match g.issue_area with
          | some ia => strContains (strToLower ia) (strToLower area)
          | none => false) then ⟨5, 10⟩ else Frac.ofInt 0
    let prefMatch : Frac :=
      if jsStrTruthy prefs.preferredScope &&
          (match g.scope with
           | some gs => decide (strToLower gs = strToLower (prefs.preferredScope.getD ""))
           | none => false) then
        Frac.add prefMatch1 ⟨5, 10⟩
      else prefMatch1
    if Frac.leB prefMatch (Frac.ofInt 0) then
      (Frac.ofInt 0, [])
    else
      (Frac.mul weightUserPref prefMatch, ["Matches your saved preferences"])
  | none => (Frac.ofInt 0, [])

/-- `calculateMatchScore`: sum the six weighted components in source order
and normalize with `Math.round(Math.min(100, score * 100))`. -/
def calculateMatchScore (g : Grant) (criteria : ParsedGrantQuery)
    (userPrefs : Option UserPreferencesD) (dateMs : String → Int) (now : Int) :
    Int × List String :=
  let c1 := issueAreaComponent g criteria
  let c2 := fundingComponent g criteria
  let c3 := scopeComponent g criteria
  let c4 := deadlineComponent g dateMs now
  let c5 := keywordComponent g criteria
  let c6 := userPrefComponent g userPrefs
  let score := Frac.add (Frac.add (Frac.add (Frac.add (Frac.add c1.1 c2.1) c3.1) c4.1) c5.1) c6.1
  let normalizedScore := Frac.round (Frac.minF (Frac.ofInt 100) (Frac.mul score (Frac.ofInt 100)))
  (normalizedScore, c1.2 ++ c2.2 ++ c3.2 ++ c4.2 ++ c5.2 ++ c6.2)

/-- The descending order of the deterministic `sort((a, b) =>
b.matchScore - a.matchScore)`. -/
def matchScoreDescOrder (a b : GrantWithScoreD) : Prop :=
  b.matchScore ≤ a.matchScore

instance : DecidableRel matchScoreDescOrder := fun a b => Int.decLe b.matchScore a.matchScore

/-- The scoring/sorting/filtering tail of the deterministic `searchGrants`:
score every fetched grant, sort descending, and apply the dual-threshold
policy — if some grant reaches the good-match bar (50), prune below 20;
otherwise return the full scored list. -/
def searchGrantsRank (criteria : ParsedGrantQuery) (grants : List Grant)
    (userPrefs : Option UserPreferencesD) (dateMs : String → Int) (now : Int) :
    List GrantWithScoreD :=
  let scoredGrants := grants.map (fun g =>
    let r := calculateMatchScore g criteria userPrefs dateMs now
    { grant := g, matchScore := r.1, matchReasons := r.2 })
  let sorted := List.insertionSort matchScoreDescOrder scoredGrants
  let hasGoodMatches := sorted.any (fun g => decide (50 ≤ g.matchScore))
  if hasGoodMatches then sorted.filter (fun g => decide (20 ≤ g.matchScore))
  else sorted

end Deterministic

/-! ## Spec-side comparison predicates

For the refinement comparison of the funding filters, the predicate is also
written out following the specification's words ("a grant passes the
minimum-funding filter if its upper bound (or unbounded) is ≥ the requested
minimum; symmetric for the maximum filter"), to be compared with the
predicate the query actually denotes. -/

/-- Modelled from the spec: the claimed minimum-funding pass condition —
upper bound absent (unbounded) or ≥ the requested minimum. -/
def specPassesMinFunding (m : Int) (g : Grant) : Bool :=
  match g.funding_max with
  | some fm => decide (m ≤ fm)
  | none => true

/-- Modelled from the spec: the claimed maximum-funding pass condition —
lower bound absent or ≤ the requested maximum. -/
def specPassesMaxFunding (m : Int) (g : Grant) : Bool :=
  match g.funding_min with
  | some fm => decide (fm ≤ m)
  | none => true

/-! ## Concrete fixtures used by witnesses and counterexamples -/

/-- A concrete active environment grant. -/
def exampleGrant : Grant :=
  { id := "grant-1"
    title := "Community Climate Fund"
    description := some "Supports local climate projects"
    issue_area := some "Environment"
    scope := some "local"
    kpis := none
    funding_min := some 1000
    funding_max := some 40000
    application_due_date := some "2026-11-01"
    eligibility_criteria := some "Registered nonprofits"
    funder_name := none
    funder_url := none
    source_url := none
    is_active := true }

/-- A second concrete grant, with unbounded funding ceiling. -/
def exampleGrantNoMax : Grant :=
  { id := "grant-2"
    title := "Open Arts Fund"
    description := none
    issue_area := some "Arts & Culture"
    scope := some "national"
    kpis := none
    funding_min := some 100000
    funding_max := none
    application_due_date := none
    eligibility_criteria := none
    funder_name := none
    funder_url := none
    source_url := none
    is_active := true }

/-- A parsed response entry scoring `exampleGrant` at 10 (below every
threshold). -/
def exampleLowItem : ScoreItem :=
  { id := some "grant-1"
    index := none
    score := some 10
    reason := none
    reasons := none
    whyMatches := some ["Somewhat related"]
    whyDoesNotMatch := some ["Weak fit"] }

/-- A service oracle that always answers with the single low-scoring entry. -/
def exampleLowService : Nat → Nat → AttemptResult :=
  fun _ _ => AttemptResult.ok (ParsedResponse.items [exampleLowItem])

/-- A service oracle whose calls always throw a rate-limit error. -/
def exampleRateLimitedService : Nat → AttemptResult :=
  fun _ => AttemptResult.err "Request failed with status code 429"

/-- A per-batch service oracle that always succeeds with an empty score
array. -/
def exampleEmptyArrayService : Nat → AttemptResult :=
  fun _ => AttemptResult.ok (ParsedResponse.items [])

/-- A per-batch service oracle that always throws a non-rate-limit error. -/
def exampleHardFailService : Nat → AttemptResult :=
  fun _ => AttemptResult.err "500 server error"

/-- Interpreter criteria fixture for the deterministic matcher. -/
def exampleCriteria : ParsedGrantQuery :=
  { issueAreas := ["Environment"]
    fundingMin := none
    fundingMax := some 50000
    scope := none
    urgency := none
    deadlineBefore := none
    keywords := ["climate"]
    organizationType := none
    kpiPreferences := []
    excludeTerms := []
    originalQuery := "climate grants under $50,000"
    parseConfidence := 9/10 }

/-- A date oracle placing every stored deadline 40 days after time 0. -/
def exampleDateMs : String → Int :=
  fun _ => 40 * 86400000

/-- A score of 40 for `grant-1`, as if produced by one batch. -/
def exampleScore40 : GrantScore :=
  { grantId := "grant-1"
    score := 40
    reasons := ["From batch one"]
    whyMatches := ["From batch one"]
    whyDoesNotMatch := [] }

/-- A score of 70 for the same `grant-1`, as if produced by another batch. -/
def exampleScore70 : GrantScore :=
  { grantId := "grant-1"
    score := 70
    reasons := ["From batch two"]
    whyMatches := ["From batch two"]
    whyDoesNotMatch := [] }

/-! # Theorems -/

/-! ## Association-list lemmas for the JS `Map` model -/

theorem scoreMapGet_eq_none (m : List (String × GrantScore)) (k : String) :
    scoreMapGet m k = none ↔ ∀ p ∈ m, p.1 ≠ k := by
  simp [scoreMapGet, List.find?_eq_none]

theorem scoreMapGet_mem {m : List (String × GrantScore)} {k : String} {v : GrantScore}
    (h : scoreMapGet m k = some v) : (k, v) ∈ m := by
  simp only [scoreMapGet, Option.map_eq_some'] at h
  obtain ⟨p, hp, hv⟩ := h
  have hmem := List.mem_of_find?_eq_some hp
  have hkey := List.find?_some hp
  simp only [decide_eq_true_eq] at hkey
  have : p = (k, v) := by
    cases p
    simp_all
  rwa [this] at hmem

theorem scoreMapGet_cons (q : String × GrantScore) (m : List (String × GrantScore))
    (k : String) :
    scoreMapGet (q :: m) k = if q.1 = k then some q.2 else scoreMapGet m k := by
  by_cases h : q.1 = k
  · simp [scoreMapGet, List.find?, h]
  · simp [scoreMapGet, List.find?, h]

theorem scoreMapSet_cons_ne {q : String × GrantScore} {k : String}
    (m : List (String × GrantScore)) (v : GrantScore) (hqk : q.1 ≠ k) :
    scoreMapSet (q :: m) k v = q :: scoreMapSet m k v := by
  by_cases h : m.any (fun p => decide (p.1 = k)) = true
  · simp [scoreMapSet, hqk, h]
  · simp [scoreMapSet, hqk, h]

theorem scoreMapSet_cons_eq {q : String × GrantScore} {k : String}
    (m : List (String × GrantScore)) (v : GrantScore) (hqk : q.1 = k) :
    scoreMapSet (q :: m) k v =
      (k, v) :: m.map (fun p => if p.1 = k then (k, v) else p) := by
  simp [scoreMapSet, hqk]

theorem scoreMapSet_get_self (m : List (String × GrantScore)) (k : String) (v : GrantScore) :
    scoreMapGet (scoreMapSet m k v) k = some v := by
  induction m with
  | nil => simp [scoreMapSet, scoreMapGet, List.find?]
  | cons q m ih =>
    by_cases hqk : q.1 = k
    · rw [scoreMapSet_cons_eq m v hqk, scoreMapGet_cons]
      simp
    · rw [scoreMapSet_cons_ne m v hqk, scoreMapGet_cons]
      simp [hqk, ih]

theorem scoreMapSet_get_other (m : List (String × GrantScore)) (k k' : String)
    (v : GrantScore) (hne : k' ≠ k) :
    scoreMapGet (scoreMapSet m k v) k' = scoreMapGet m k' := by
  induction m with
  | nil =>
    have hk : ¬ (k = k') := fun h => hne h.symm
    simp [scoreMapSet, scoreMapGet, List.find?, hk]
  | cons q m ih =>
    by_cases hqk : q.1 = k
    · rw [scoreMapSet_cons_eq m v hqk, scoreMapGet_cons, scoreMapGet_cons]
      have hq' : ¬ (k = k') := fun h => hne h.symm
      have hq2 : ¬ (q.1 = k') := by rw [hqk]; exact hq'
      simp only [hq', if_false, hq2, if_false]
      clear ih
      induction m with
      | nil => simp
      | cons r m ihm =>
        rw [List.map_cons, scoreMapGet_cons, scoreMapGet_cons]
        by_cases hrk : r.1 = k
        · have : ¬ (r.1 = k') := by rw [hrk]; exact hq'
          simp only [hrk, if_true, this, if_false, ihm]
          simp [hq']
        · simp only [hrk, if_false]
          by_cases hrk' : r.1 = k'
          · simp [hrk']
          · simp [hrk', ihm]
    · rw [scoreMapSet_cons_ne m v hqk, scoreMapGet_cons, scoreMapGet_cons]
      by_cases hqk' : q.1 = k'
      · simp [hqk']
      · simp [hqk', ih]

theorem scoreMapSet_mem {m : List (String × GrantScore)} {k : String} {v : GrantScore}
    {p : String × GrantScore} (h : p ∈ scoreMapSet m k v) :
    (p ∈ m ∧ p.1 ≠ k) ∨ p = (k, v) := by
  induction m with
  | nil =>
    simp only [scoreMapSet, List.any_nil, Bool.false_eq_true, if_false, List.nil_append,
      List.mem_singleton] at h
    right
    exact h
  | cons q m ih =>
    by_cases hqk : q.1 = k
    · rw [scoreMapSet_cons_eq m v hqk] at h
      simp only [List.mem_cons] at h
      rcases h with h | h
      · right; exact h
      · simp only [List.mem_map] at h
        obtain ⟨r, hr, hre⟩ := h
        by_cases hrk : r.1 = k
        · right
          rw [← hre]
          simp [hrk]
        · left
          rw [← hre]
          simp only [hrk, if_false]
          exact ⟨List.mem_cons_of_mem q hr, hrk⟩
    · rw [scoreMapSet_cons_ne m v hqk] at h
      simp only [List.mem_cons] at h
      rcases h with h | h
      · left
        subst h
        exact ⟨List.mem_cons_self p m, hqk⟩
      · rcases ih h with ⟨hm, hne⟩ | he
        · exact Or.inl ⟨List.mem_cons_of_mem q hm, hne⟩
        · exact Or.inr he

theorem scoreMapSet_keys_subset {m : List (String × GrantScore)} {k : String}
    {v : GrantScore} {p : String × GrantScore} (hp : p ∈ m) :
    ∃ q ∈ scoreMapSet m k v, q.1 = p.1 := by
  induction m with
  | nil => simp at hp
  | cons r m ih =>
    by_cases hrk : r.1 = k
    · rw [scoreMapSet_cons_eq m v hrk]
      simp only [List.mem_cons] at hp
      rcases hp with rfl | hp
      · exact ⟨(k, v), List.mem_cons_self _ _, hrk.symm⟩
      · by_cases hpk : p.1 = k
        · exact ⟨(k, v), List.mem_cons_self _ _, hpk.symm⟩
        · refine ⟨p, ?_, rfl⟩
          apply List.mem_cons_of_mem
          rw [List.mem_map]
          exact ⟨p, hp, by simp [hpk]⟩
    · rw [scoreMapSet_cons_ne m v hrk]
      simp only [List.mem_cons] at hp
      rcases hp with rfl | hp
      · exact ⟨p, List.mem_cons_self _ _, rfl⟩
      · obtain ⟨q, hq, hqe⟩ := ih hp
        exact ⟨q, List.mem_cons_of_mem r hq, hqe⟩

theorem scoreMapSet_keys_mem {m : List (String × GrantScore)} {k a : String}
    {v : GrantScore} (h : a ∈ (scoreMapSet m k v).map Prod.fst) :
    a ∈ m.map Prod.fst ∨ a = k := by
  simp only [List.mem_map] at h
  obtain ⟨p, hp, hpa⟩ := h
  rcases scoreMapSet_mem hp with ⟨hm, _⟩ | he
  · left
    rw [List.mem_map]
    exact ⟨p, hm, hpa⟩
  · right
    rw [he] at hpa
    exact hpa.symm

theorem scoreMapSet_keys_nodup {m : List (String × GrantScore)} (k : String) (v : GrantScore)
    (h : (m.map Prod.fst).Nodup) : ((scoreMapSet m k v).map Prod.fst).Nodup := by
  induction m with
  | nil => simp [scoreMapSet]
  | cons q m ih =>
    simp only [List.map_cons, List.nodup_cons] at h
    by_cases hqk : q.1 = k
    · rw [scoreMapSet_cons_eq m v hqk]
      simp only [List.map_cons, List.nodup_cons, List.map_map]
      have hkeys : (m.map (Prod.fst ∘ fun p => if p.1 = k then (k, v) else p)) = m.map Prod.fst := by
        apply List.map_congr_left
        intro p _
        by_cases hp : p.1 = k
        · simp [hp]
        · simp [hp]
      rw [hkeys]
      rw [← hqk]
      exact h
    · rw [scoreMapSet_cons_ne m v hqk]
      simp only [List.map_cons, List.nodup_cons]
      refine ⟨?_, ih h.2⟩
      intro hmem
      rcases scoreMapSet_keys_mem hmem with hin | heq
      · exact h.1 hin
      · exact hqk heq

theorem mem_eq_of_keys_nodup {m : List (String × GrantScore)}
    {p q : String × GrantScore} (h : (m.map Prod.fst).Nodup)
    (hp : p ∈ m) (hq : q ∈ m) (hk : p.1 = q.1) : p = q := by
  induction m with
  | nil => simp at hp
  | cons r m ih =>
    simp only [List.map_cons, List.nodup_cons] at h
    simp only [List.mem_cons] at hp hq
    rcases hp with rfl | hp
    · rcases hq with rfl | hq
      · rfl
      · exfalso
        apply h.1
        rw [List.mem_map]
        exact ⟨q, hq, hk.symm⟩
    · rcases hq with rfl | hq
      · exfalso
        apply h.1
        rw [List.mem_map]
        exact ⟨p, hp, hk⟩
      · exact ih h.2 hp hq

/-! ## Dedup-step lemmas (`dedupStep`, the `scoreMap` loop body) -/

theorem dedupStep_get_self (m : List (String × GrantScore)) (s : GrantScore) :
    ∃ v, scoreMapGet (dedupStep m s) s.grantId = some v ∧ s.score ≤ v.score ∧
      (∀ w, scoreMapGet m s.grantId = some w → w.score ≤ v.score) ∧
      (v = s ∨ scoreMapGet m s.grantId = some v) := by
  unfold dedupStep
  cases hget : scoreMapGet m s.grantId with
  | none =>
    refine ⟨s, ?_, le_refl _, ?_, Or.inl rfl⟩
    · exact scoreMapSet_get_self m s.grantId s
    · intro w hw
      cases hw
  | some existing =>
    by_cases hgt : s.score > existing.score
    · simp only [hgt, if_true]
      refine ⟨s, scoreMapSet_get_self m s.grantId s, le_refl _, ?_, Or.inl rfl⟩
      intro w hw
      cases hw
      omega
    · simp only [hgt, if_false]
      refine ⟨existing, hget, by omega, ?_, Or.inr rfl⟩
      intro w hw
      cases hw
      exact le_refl _

theorem dedupStep_get_other (m : List (String × GrantScore)) (s : GrantScore)
    (k : String) (h : k ≠ s.grantId) :
    scoreMapGet (dedupStep m s) k = scoreMapGet m k := by
  unfold dedupStep
  cases hget : scoreMapGet m s.grantId with
  | none => exact scoreMapSet_get_other m s.grantId k s h
  | some existing =>
    by_cases hgt : s.score > existing.score
    · simp only [hgt, if_true]
      exact scoreMapSet_get_other m s.grantId k s h
    · simp only [hgt, if_false]

theorem dedupStep_mem {m : List (String × GrantScore)} {s : GrantScore}
    {p : String × GrantScore} (h : p ∈ dedupStep m s) :
    p ∈ m ∨ p = (s.grantId, s) := by
  unfold dedupStep at h
  cases hget : scoreMapGet m s.grantId with
  | none =>
    rw [hget] at h
    rcases scoreMapSet_mem h with ⟨hm, _⟩ | he
    · exact Or.inl hm
    · exact Or.inr he
  | some existing =>
    rw [hget] at h
    by_cases hgt : s.score > existing.score
    · simp only [hgt, if_true] at h
      rcases scoreMapSet_mem h with ⟨hm, _⟩ | he
      · exact Or.inl hm
      · exact Or.inr he
    · simp only [hgt, if_false] at h
      exact Or.inl h

theorem dedupStep_inv {m : List (String × GrantScore)} {s : GrantScore}
    (h : ∀ p ∈ m, p.2.grantId = p.1) :
    ∀ p ∈ dedupStep m s, p.2.grantId = p.1 := by
  intro p hp
  rcases dedupStep_mem hp with hm | he
  · exact h p hm
  · rw [he]

theorem dedupStep_keys_nodup {m : List (String × GrantScore)} {s : GrantScore}
    (h : (m.map Prod.fst).Nodup) : ((dedupStep m s).map Prod.fst).Nodup := by
  unfold dedupStep
  cases hget : scoreMapGet m s.grantId with
  | none => exact scoreMapSet_keys_nodup _ _ h
  | some existing =>
    by_cases hgt : s.score > existing.score
    · simp only [hgt, if_true]
      exact scoreMapSet_keys_nodup _ _ h
    · simp only [hgt, if_false]
      exact h

/-- Master specification of the dedup fold: invariants carried from the
initial map through `foldl dedupStep`. -/
theorem dedup_foldl_spec (scores : List GrantScore) :
    ∀ m : List (String × GrantScore),
      (∀ p ∈ scores.foldl dedupStep m, p ∈ m ∨ p.2 ∈ scores) ∧
      (∀ k v, scoreMapGet m k = some v →
        ∃ v', scoreMapGet (scores.foldl dedupStep m) k = some v' ∧ v.score ≤ v'.score) ∧
      (∀ s ∈ scores,
        ∃ v', scoreMapGet (scores.foldl dedupStep m) s.grantId = some v' ∧
          s.score ≤ v'.score) := by
  induction scores with
  | nil =>
    intro m
    refine ⟨fun p hp => Or.inl hp, fun k v hv => ⟨v, hv, le_refl _⟩, ?_⟩
    intro s hs
    simp at hs
  | cons s rest ih =>
    intro m
    obtain ⟨ihA, ihB, ihC⟩ := ih (dedupStep m s)
    simp only [List.foldl_cons]
    refine ⟨?_, ?_, ?_⟩
    · intro p hp
      rcases ihA p hp with hstep | hrest
      · rcases dedupStep_mem hstep with hm | he
        · exact Or.inl hm
        · right
          rw [he]
          exact List.mem_cons_self s rest
      · exact Or.inr (List.mem_cons_of_mem s hrest)
    · intro k v hv
      by_cases hk : k = s.grantId
      · subst hk
        obtain ⟨v1, hv1, _, hmax, _⟩ := dedupStep_get_self m s
        obtain ⟨v', hv', hle'⟩ := ihB s.grantId v1 hv1
        exact ⟨v', hv', le_trans (hmax v hv) hle'⟩
      · rw [← dedupStep_get_other m s k hk] at hv
        exact ihB k v hv
    · intro t ht
      simp only [List.mem_cons] at ht
      rcases ht with rfl | ht
      · obtain ⟨v1, hv1, hle1, _, _⟩ := dedupStep_get_self m t
        obtain ⟨v', hv', hle'⟩ := ihB t.grantId v1 hv1
        exact ⟨v', hv', le_trans hle1 hle'⟩
      · exact ihC t ht

/-- The key list of the dedup fold stays duplicate-free, and values keep
their keys as grant ids. -/
theorem dedup_foldl_keys (scores : List GrantScore) :
    ∀ m : List (String × GrantScore),
      (m.map Prod.fst).Nodup → (∀ p ∈ m, p.2.grantId = p.1) →
      ((scores.foldl dedupStep m).map Prod.fst).Nodup ∧
        (∀ p ∈ scores.foldl dedupStep m, p.2.grantId = p.1) := by
  induction scores with
  | nil => exact fun m h1 h2 => ⟨h1, h2⟩
  | cons s rest ih =>
    intro m h1 h2
    simp only [List.foldl_cons]
    exact ih (dedupStep m s) (dedupStep_keys_nodup h1) (dedupStep_inv h2)

/-! ## `dedupScores` specification -/

theorem dedupScores_subset {scores : List GrantScore} {e : GrantScore}
    (h : e ∈ dedupScores scores) : e ∈ scores := by
  simp only [dedupScores, List.mem_map] at h
  obtain ⟨p, hp, hpe⟩ := h
  have := (dedup_foldl_spec scores []).1 p hp
  rcases this with hnil | hs
  · simp at hnil
  · rwa [hpe] at hs

theorem dedupScores_complete {scores : List GrantScore} {s : GrantScore}
    (h : s ∈ scores) :
    ∃ e ∈ dedupScores scores, e.grantId = s.grantId ∧ s.score ≤ e.score := by
  obtain ⟨v', hv', hle⟩ := (dedup_foldl_spec scores []).2.2 s h
  have hpair := scoreMapGet_mem hv'
  have hinv := (dedup_foldl_keys scores [] (by simp) (by simp)).2 _ hpair
  refine ⟨v', ?_, hinv, hle⟩
  simp only [dedupScores, List.mem_map]
  exact ⟨(s.grantId, v'), hpair, rfl⟩

theorem dedupScores_unique {scores : List GrantScore} {e1 e2 : GrantScore}
    (h1 : e1 ∈ dedupScores scores) (h2 : e2 ∈ dedupScores scores)
    (hk : e1.grantId = e2.grantId) : e1 = e2 := by
  simp only [dedupScores, List.mem_map] at h1 h2
  obtain ⟨p1, hp1, hpe1⟩ := h1
  obtain ⟨p2, hp2, hpe2⟩ := h2
  obtain ⟨hnodup, hinv⟩ := dedup_foldl_keys scores [] (by simp) (by simp)
  have hkeys : p1.1 = p2.1 := by
    rw [← hinv p1 hp1, ← hinv p2 hp2, hpe1, hpe2, hk]
  have := mem_eq_of_keys_nodup hnodup hp1 hp2 hkeys
  rw [← hpe1, ← hpe2, this]

/-- C4: for every collection of per-batch score lists (flattened into
`scores`), the aggregation step `dedupScores` yields exactly one entry per
occurring grant identifier, and that entry is one of the input scores
carrying the highest score observed for that identifier; in particular two
batch entries of 40 and 70 for one grant collapse to the single entry with
70 (see the witness). -/
theorem claim_C4 (scores : List GrantScore) (s0 : GrantScore) (h : s0 ∈ scores) :
    ∃ e, e ∈ dedupScores scores ∧ e.grantId = s0.grantId ∧ e ∈ scores ∧
      (∀ s ∈ scores, s.grantId = s0.grantId → s.score ≤ e.score) ∧
      (∀ e' ∈ dedupScores scores, e'.grantId = s0.grantId → e' = e) := by
  obtain ⟨e, he, hek, _⟩ := dedupScores_complete h
  refine ⟨e, he, hek, dedupScores_subset he, ?_, ?_⟩
  · intro s hs hsk
    obtain ⟨e2, he2, he2k, hle2⟩ := dedupScores_complete hs
    have : e2 = e := dedupScores_unique he2 he (by rw [he2k, hsk, hek])
    rw [← this]
    exact hle2
  · intro e' he' he'k
    exact dedupScores_unique he' he (by rw [he'k, hek])

/-- Witness for C4 at the spec's concrete scenario: scores 40 and 70 for the
same grant aggregate to the single entry with score 70. -/
theorem claim_C4_witness :
    dedupScores [exampleScore40, exampleScore70] = [exampleScore70] ∧
      (∃ e, e ∈ dedupScores [exampleScore40, exampleScore70] ∧
        e.grantId = exampleScore40.grantId ∧ e ∈ [exampleScore40, exampleScore70] ∧
        (∀ s ∈ [exampleScore40, exampleScore70],
          s.grantId = exampleScore40.grantId → s.score ≤ e.score) ∧
        (∀ e' ∈ dedupScores [exampleScore40, exampleScore70],
          e'.grantId = exampleScore40.grantId → e' = e)) :=
  ⟨by decide, claim_C4 [exampleScore40, exampleScore70] exampleScore40 (by decide)⟩

/-! ## Score-bound lemmas (clamping invariant) -/

theorem parseItem_score_bounds (grants : List Grant) (item : ScoreItem) :
    0 ≤ (parseItem grants item).score ∧ (parseItem grants item).score ≤ 100 := by
  simp only [parseItem]
  omega

theorem parseScoreResponse_score_bounds (resp : ParsedResponse) (grants : List Grant) :
    ∀ s ∈ parseScoreResponse resp grants, 0 ≤ s.score ∧ s.score ≤ 100 := by
  intro s hs
  cases resp with
  | malformed => simp [parseScoreResponse] at hs
  | objNoArray => simp [parseScoreResponse] at hs
  | items l =>
    simp only [parseScoreResponse, List.mem_filter, List.mem_map] at hs
    obtain ⟨⟨item, _, hitem⟩, _⟩ := hs
    rw [← hitem]
    exact parseItem_score_bounds grants item

theorem neutralBatchScores_score (grants : List Grant) :
    ∀ s ∈ neutralBatchScores grants, s.score = 50 := by
  intro s hs
  simp only [neutralBatchScores, List.mem_map] at hs
  obtain ⟨g, _, hg⟩ := hs
  rw [← hg]

/-! ## Equation lemmas for the batch-scoring recursion -/

theorem scoreGrantBatchAux_ok {userQuery : String} {grants : List Grant} {client : Nat}
    {service : Nat → AttemptResult} {userPrefs : Option UserMatchPreferences}
    {retryCount : Nat} {resp : ParsedResponse} (fuel : Nat)
    (h : service retryCount = AttemptResult.ok resp) :
    scoreGrantBatchAux userQuery grants client service userPrefs fuel retryCount =
      (parseScoreResponse resp grants, []) := by
  cases fuel <;> simp [scoreGrantBatchAux, h]

theorem scoreGrantBatchAux_err_stop {userQuery : String} {grants : List Grant} {client : Nat}
    {service : Nat → AttemptResult} {userPrefs : Option UserMatchPreferences}
    {retryCount : Nat} {msg : String} (fuel : Nat)
    (h : service retryCount = AttemptResult.err msg)
    (hcond : ¬ (isRateLimitError msg = true ∧ retryCount < MAX_RETRIES)) :
    scoreGrantBatchAux userQuery grants client service userPrefs fuel retryCount =
      (neutralBatchScores grants, []) := by
  cases fuel <;> simp only [scoreGrantBatchAux, h, if_neg hcond]

theorem scoreGrantBatchAux_err_retry {userQuery : String} {grants : List Grant} {client : Nat}
    {service : Nat → AttemptResult} {userPrefs : Option UserMatchPreferences}
    {retryCount : Nat} {msg : String} (fuel : Nat)
    (h : service retryCount = AttemptResult.err msg)
    (hrl : isRateLimitError msg = true) (hlt : retryCount < MAX_RETRIES) :
    scoreGrantBatchAux userQuery grants client service userPrefs (fuel + 1) retryCount =
      ((scoreGrantBatchAux userQuery grants client service userPrefs fuel (retryCount + 1)).1,
        2 ^ retryCount * 1000 ::
          (scoreGrantBatchAux userQuery grants client service userPrefs fuel (retryCount + 1)).2) := by
  simp only [scoreGrantBatchAux, h, if_pos (And.intro hrl hlt)]

theorem scoreGrantBatchAux_err_zero {userQuery : String} {grants : List Grant} {client : Nat}
    {service : Nat → AttemptResult} {userPrefs : Option UserMatchPreferences}
    {retryCount : Nat} {msg : String}
    (h : service retryCount = AttemptResult.err msg) :
    scoreGrantBatchAux userQuery grants client service userPrefs 0 retryCount =
      (neutralBatchScores grants, []) := by
  by_cases hcond : isRateLimitError msg = true ∧ retryCount < MAX_RETRIES
  · simp only [scoreGrantBatchAux, h, if_pos hcond]
  · simp only [scoreGrantBatchAux, h, if_neg hcond]

theorem scoreGrantBatchAux_score_bounds (userQuery : String) (grants : List Grant)
    (client : Nat) (service : Nat → AttemptResult)
    (userPrefs : Option UserMatchPreferences) (fuel retryCount : Nat) :
    ∀ s ∈ (scoreGrantBatchAux userQuery grants client service userPrefs fuel retryCount).1,
      0 ≤ s.score ∧ s.score ≤ 100 := by
  induction fuel generalizing retryCount with
  | zero =>
    intro s hs
    cases hserv : service retryCount with
    | ok resp =>
      rw [scoreGrantBatchAux_ok 0 hserv] at hs
      exact parseScoreResponse_score_bounds resp grants s hs
    | err msg =>
      rw [scoreGrantBatchAux_err_zero hserv] at hs
      have := neutralBatchScores_score grants s hs
      omega
  | succ f ih =>
    intro s hs
    cases hserv : service retryCount with
    | ok resp =>
      rw [scoreGrantBatchAux_ok (f + 1) hserv] at hs
      exact parseScoreResponse_score_bounds resp grants s hs
    | err msg =>
      by_cases hcond : isRateLimitError msg = true ∧ retryCount < MAX_RETRIES
      · rw [scoreGrantBatchAux_err_retry f hserv hcond.1 hcond.2] at hs
        exact ih (retryCount + 1) s hs
      · rw [scoreGrantBatchAux_err_stop (f + 1) hserv hcond] at hs
        have := neutralBatchScores_score grants s hs
        omega

theorem scoreGrantBatch_score_bounds (userQuery : String) (grants : List Grant)
    (client : Nat) (service : Nat → AttemptResult)
    (userPrefs : Option UserMatchPreferences) (retryCount : Nat) :
    ∀ s ∈ (scoreGrantBatch userQuery grants client service userPrefs retryCount).1,
      0 ≤ s.score ∧ s.score ≤ 100 :=
  scoreGrantBatchAux_score_bounds userQuery grants client service userPrefs _ retryCount

theorem boostScore_score_bounds (grants : List Grant) (areas : List String)
    (s : GrantScore) (h0 : 0 ≤ s.score) (h100 : s.score ≤ 100) :
    0 ≤ (boostScore grants areas s).score ∧ (boostScore grants areas s).score ≤ 100 := by
  unfold boostScore
  cases grantsMapGet grants s.grantId with
  | none => exact ⟨h0, h100⟩
  | some grant =>
    by_cases hm : issueAreaMatchesPrefs areas grant = true
    · simp only [hm, if_true, PREFERENCE_BOOST]
      constructor
      · simp only [le_min_iff]
        omega
      · exact min_le_left _ _
    · simp only [hm, if_false]
      exact ⟨h0, h100⟩

theorem applyPreferenceBoost_score_bounds (grants : List Grant)
    (userPrefs : Option UserMatchPreferences) (scores : List GrantScore)
    (h : ∀ s ∈ scores, 0 ≤ s.score ∧ s.score ≤ 100) :
    ∀ s ∈ applyPreferenceBoost grants userPrefs scores, 0 ≤ s.score ∧ s.score ≤ 100 := by
  intro s hs
  cases userPrefs with
  | none => exact h s hs
  | some prefs =>
    cases hareas : prefs.issueAreas with
    | none =>
      simp only [applyPreferenceBoost, hareas] at hs
      exact h s hs
    | some areas =>
      simp only [applyPreferenceBoost, hareas] at hs
      split at hs
      · simp only [List.mem_map] at hs
        obtain ⟨t, ht, hts⟩ := hs
        obtain ⟨ht0, ht100⟩ := h t ht
        rw [← hts]
        exact boostScore_score_bounds grants areas t ht0 ht100
      · exact h s hs

theorem mem_mapIdx_imp {α β : Type} {l : List α} {f : Nat → α → β} {b : β}
    (h : b ∈ l.mapIdx f) : ∃ i : Fin l.length, f i (l.get i) = b := by
  rw [List.mapIdx_eq_ofFn] at h
  exact (List.mem_ofFn _ _).1 h

/-- C3: every `GrantScore` produced by the semantic scoring pipeline — from
response parsing, from the neutral fallback, and after preference boosting —
has its score clamped into `[0, 100]`, whatever the completion service
returned.  (The non-nullity of the three reason lists is enforced
structurally: `GrantScore`'s list fields are total, mirroring that every
construction site populates them.) -/
theorem claim_C3 (userQuery : String) (grants : List Grant)
    (userPrefs : Option UserMatchPreferences) (numClients : Nat)
    (services : Nat → Nat → AttemptResult) :
    ∀ s ∈ scoreGrantsSemanticallyCore userQuery grants userPrefs numClients services,
      0 ≤ s.score ∧ s.score ≤ 100 := by
  intro s hs
  simp only [scoreGrantsSemanticallyCore] at hs
  rw [(List.perm_insertionSort scoreDescOrder _).mem_iff] at hs
  apply applyPreferenceBoost_score_bounds grants userPrefs _ _ s hs
  intro t ht
  have ht' := dedupScores_subset ht
  rw [List.mem_flatten] at ht'
  obtain ⟨batchRes, hbr, htb⟩ := ht'
  obtain ⟨i, hfi⟩ := mem_mapIdx_imp hbr
  rw [← hfi] at htb
  exact scoreGrantBatch_score_bounds _ _ _ _ _ _ t htb

/-- Witness for C3 at a concrete run: the single produced score (10 for
`grant-1`) is within bounds. -/
theorem claim_C3_witness :
    GrantScore.mk "grant-1" 10 ["Somewhat related", "Weak fit"] ["Somewhat related"]
        ["Weak fit"] ∈
      scoreGrantsSemanticallyCore "climate projects" [exampleGrant] none 1
        exampleLowService ∧
    0 ≤ (GrantScore.mk "grant-1" 10 ["Somewhat related", "Weak fit"] ["Somewhat related"]
        ["Weak fit"]).score ∧
    (GrantScore.mk "grant-1" 10 ["Somewhat related", "Weak fit"] ["Somewhat related"]
        ["Weak fit"]).score ≤ 100 :=
  ⟨by decide,
   (claim_C3 "climate projects" [exampleGrant] none 1 exampleLowService
     (GrantScore.mk "grant-1" 10 ["Somewhat related", "Weak fit"] ["Somewhat related"]
       ["Weak fit"]) (by decide)).1,
   (claim_C3 "climate projects" [exampleGrant] none 1 exampleLowService
     (GrantScore.mk "grant-1" 10 ["Somewhat related", "Weak fit"] ["Somewhat related"]
       ["Weak fit"]) (by decide)).2⟩

/-! ## Retry cap lemma -/

theorem scoreGrantBatchAux_delays_le (userQuery : String) (grants : List Grant)
    (client : Nat) (service : Nat → AttemptResult)
    (userPrefs : Option UserMatchPreferences) (fuel retryCount : Nat) :
    (scoreGrantBatchAux userQuery grants client service userPrefs fuel retryCount).2.length ≤
      fuel := by
  induction fuel generalizing retryCount with
  | zero =>
    cases hserv : service retryCount with
    | ok resp =>
      rw [scoreGrantBatchAux_ok 0 hserv]
      simp
    | err msg =>
      rw [scoreGrantBatchAux_err_zero hserv]
      simp
  | succ f ih =>
    cases hserv : service retryCount with
    | ok resp =>
      rw [scoreGrantBatchAux_ok (f + 1) hserv]
      simp
    | err msg =>
      by_cases hcond : isRateLimitError msg = true ∧ retryCount < MAX_RETRIES
      · rw [scoreGrantBatchAux_err_retry f hserv hcond.1 hcond.2]
        have := ih (retryCount + 1)
        simp only [List.length_cons]
        omega
      · rw [scoreGrantBatchAux_err_stop (f + 1) hserv hcond]
        simp

/-- C5: the retry discipline of `scoreGrantBatch`.  (1) A rate-limit-class
error (message containing `'429'` or `'rate'`) with spare retries makes the
function retry the same batch, on the same client and service, with the
retry counter incremented and a backoff delay of `2 ^ retryCount * 1000` ms
(doubling per attempt) recorded.  (2) A non-rate-limit error immediately
yields the neutral fallback.  (3) Once `MAX_RETRIES` (3) attempts are used
up, a further error yields the neutral fallback.  (4) A run started at
retry count 0 never sleeps more than `MAX_RETRIES` backoff delays.  (5) The
neutral fallback scores every grant of the batch at 50 with the
degraded-analysis reason texts, so the overall search completes. -/
theorem claim_C5 (userQuery : String) (grants : List Grant) (client : Nat)
    (service : Nat → AttemptResult) (userPrefs : Option UserMatchPreferences) :
    (∀ retryCount msg, service retryCount = AttemptResult.err msg →
      isRateLimitError msg = true → retryCount < MAX_RETRIES →
      scoreGrantBatch userQuery grants client service userPrefs retryCount =
        ((scoreGrantBatch userQuery grants client service userPrefs (retryCount + 1)).1,
          2 ^ retryCount * 1000 ::
            (scoreGrantBatch userQuery grants client service userPrefs (retryCount + 1)).2)) ∧
    (∀ retryCount msg, service retryCount = AttemptResult.err msg →
      isRateLimitError msg = false →
      scoreGrantBatch userQuery grants client service userPrefs retryCount =
        (neutralBatchScores grants, [])) ∧
    (∀ retryCount msg, service retryCount = AttemptResult.err msg →
      MAX_RETRIES ≤ retryCount →
      scoreGrantBatch userQuery grants client service userPrefs retryCount =
        (neutralBatchScores grants, [])) ∧
    ((scoreGrantBatch userQuery grants client service userPrefs 0).2.length ≤ MAX_RETRIES) ∧
    (∀ g ∈ grants, ∃ s ∈ neutralBatchScores grants, s.grantId = g.id ∧ s.score = 50 ∧
      s.reasons = ["Could not analyze - showing as potential match"] ∧
      s.whyMatches = ["Could not fully analyze - shown as potential match"] ∧
      s.whyDoesNotMatch = ["Analysis incomplete due to service error"]) := by
  refine ⟨?_, ?_, ?_, ?_, ?_⟩
  · intro retryCount msg h hrl hlt
    have hf : MAX_RETRIES - retryCount = (MAX_RETRIES - (retryCount + 1)) + 1 := by omega
    simp only [scoreGrantBatch, hf]
    exact scoreGrantBatchAux_err_retry _ h hrl hlt
  · intro retryCount msg h hrl
    simp only [scoreGrantBatch]
    apply scoreGrantBatchAux_err_stop _ h
    intro hcond
    rw [hrl] at hcond
    exact Bool.false_ne_true hcond.1
  · intro retryCount msg h hge
    simp only [scoreGrantBatch]
    apply scoreGrantBatchAux_err_stop _ h
    intro hcond
    omega
  · simp only [scoreGrantBatch]
    have := scoreGrantBatchAux_delays_le userQuery grants client service userPrefs
      (MAX_RETRIES - 0) 0
    simpa using this
  · intro g hg
    refine ⟨GrantScore.mk g.id 50 ["Could not analyze - showing as potential match"]
      ["Could not fully analyze - shown as potential match"]
      ["Analysis incomplete due to service error"], ?_, rfl, rfl, rfl, rfl, rfl⟩
    simp only [neutralBatchScores, List.mem_map]
    exact ⟨g, hg, rfl⟩

/-- Witness for C5: a service that always answers 429 produces one retry
step with a 1000 ms delay from count 0, and the neutral fallback once the
three retries are exhausted. -/
theorem claim_C5_witness :
    scoreGrantBatch "q" [exampleGrant] 0 exampleRateLimitedService none 0 =
      ((scoreGrantBatch "q" [exampleGrant] 0 exampleRateLimitedService none 1).1,
        1000 :: (scoreGrantBatch "q" [exampleGrant] 0 exampleRateLimitedService none 1).2) ∧
    scoreGrantBatch "q" [exampleGrant] 0 exampleRateLimitedService none 3 =
      (neutralBatchScores [exampleGrant], []) :=
  ⟨by
    have h := (claim_C5 "q" [exampleGrant] 0 exampleRateLimitedService none).1 0
      "Request failed with status code 429" rfl (by decide) (by decide)
    simpa using h,
   (claim_C5 "q" [exampleGrant] 0 exampleRateLimitedService none).2.2.1 3
      "Request failed with status code 429" rfl (by decide)⟩

/-! ## C2: batch coverage -/

/-- Counterexample to C2 as stated: a batch call that succeeds with an empty
score array returns no `GrantScore` at all, silently dropping the (single)
input grant — the claimed "a `GrantScore` for every input grant" fails. -/
theorem claim_C2_counterexample :
    ¬ (∀ g ∈ [exampleGrant],
        ∃ s ∈ (scoreGrantBatch "climate projects" [exampleGrant] 0
          exampleEmptyArrayService none 0).1, s.grantId = g.id) := by
  decide

/-- C2 (amended): the batch scorer covers every input grant only on the
failure path — when a call throws, the neutral fallback synthesizes a score
for each grant of the batch.  On a successful call the output is exactly the
parsed response entries carrying a non-empty resolved grant id, so grants
omitted by the response (or an unparseable response) are silently dropped. -/
theorem claim_C2 (userQuery : String) (grants : List Grant) (client : Nat)
    (service : Nat → AttemptResult) (userPrefs : Option UserMatchPreferences) :
    (∀ retryCount resp, service retryCount = AttemptResult.ok resp →
      scoreGrantBatch userQuery grants client service userPrefs retryCount =
        (parseScoreResponse resp grants, []) ∧
      ∀ s ∈ parseScoreResponse resp grants, s.grantId ≠ "") ∧
    (∀ retryCount msg, service retryCount = AttemptResult.err msg →
      isRateLimitError msg = false →
      ∀ g ∈ grants,
        ∃ s ∈ (scoreGrantBatch userQuery grants client service userPrefs retryCount).1,
          s.grantId = g.id ∧ s.score = 50) := by
  constructor
  · intro retryCount resp h
    constructor
    · simp only [scoreGrantBatch]
      exact scoreGrantBatchAux_ok _ h
    · intro s hs
      cases resp with
      | malformed => simp [parseScoreResponse] at hs
      | objNoArray => simp [parseScoreResponse] at hs
      | items l =>
        simp only [parseScoreResponse, List.mem_filter, decide_eq_true_eq] at hs
        exact hs.2
  · intro retryCount msg h hrl g hg
    have heq : scoreGrantBatch userQuery grants client service userPrefs retryCount =
        (neutralBatchScores grants, []) := by
      simp only [scoreGrantBatch]
      apply scoreGrantBatchAux_err_stop _ h
      intro hcond
      rw [hrl] at hcond
      exact Bool.false_ne_true hcond.1
    rw [heq]
    refine ⟨GrantScore.mk g.id 50 ["Could not analyze - showing as potential match"]
      ["Could not fully analyze - shown as potential match"]
      ["Analysis incomplete due to service error"], ?_, rfl, rfl⟩
    simp only [neutralBatchScores, List.mem_map]
    exact ⟨g, hg, rfl⟩

/-- Witness for C2 at a concrete input: a hard service failure still yields
a score entry for the batch's grant. -/
theorem claim_C2_witness :
    ∃ s ∈ (scoreGrantBatch "climate projects" [exampleGrant] 0
      exampleHardFailService none 0).1, s.grantId = exampleGrant.id ∧ s.score = 50 :=
  (claim_C2 "climate projects" [exampleGrant] 0 exampleHardFailService none).2 0
    "500 server error" rfl (by decide) exampleGrant (by decide)

/-! ## C1: threshold filtering and the never-empty fallback -/

/-- Counterexample to C1 as stated: with one candidate grant whose only
score is 10 — below both the good-match bar (50) and the threshold (30) —
the semantic `searchGrants` path returns zero results from a non-empty
candidate set: `filterByThreshold(scores, 30)` has no fallback. -/
theorem claim_C1_counterexample :
    (scoreGrantsSemanticallyCore "climate projects" [exampleGrant] none 1
        exampleLowService).length = 1 ∧
    ((scoreGrantsSemanticallyCore "climate projects" [exampleGrant] none 1
        exampleLowService).all (fun s => decide (s.score < 50))) = true ∧
    (searchGrants "climate projects" [exampleGrant] none 1 exampleLowService [] 0).1 = [] := by
  decide

/-- C1 (amended): the never-empty fallback is the behavior of the
deterministic `searchGrants` variant — (a) for a non-empty candidate set it
never returns zero results: when nothing reaches the good-match bar (50) the
full scored list is returned, and when something does, the ≥ 20 filter keeps
at least that match.  The semantic path has no such fallback: (b) whenever
every aggregated score is below the fixed threshold 30, the semantic
`searchGrants` returns zero results even for a non-empty candidate set. -/
theorem claim_C1 (criteria : ParsedGrantQuery) (grants : List Grant)
    (userPrefs : Option Deterministic.UserPreferencesD) (dateMs : String → Int)
    (now : Int) (h : grants ≠ []) :
    Deterministic.searchGrantsRank criteria grants userPrefs dateMs now ≠ [] ∧
    (∀ (userQuery : String) (prefs : Option UserMatchPreferences) (numClients : Nat)
      (services : Nat → Nat → AttemptResult) (cache : List (String × CacheEntry)) (now' : Int),
      (∀ s ∈ (scoreGrantsSemantically userQuery grants prefs numClients services cache now').1,
        s.score < 30) →
      (searchGrants userQuery grants prefs numClients services cache now').1 = []) := by
  constructor
  · unfold Deterministic.searchGrantsRank
    set scored := grants.map (fun g =>
      let r := Deterministic.calculateMatchScore g criteria userPrefs dateMs now
      Deterministic.GrantWithScoreD.mk g r.1 r.2) with hscored
    have hperm := List.perm_insertionSort Deterministic.matchScoreDescOrder scored
    have hne : List.insertionSort Deterministic.matchScoreDescOrder scored ≠ [] := by
      intro hnil
      have hlen := hperm.length_eq
      rw [hnil] at hlen
      simp only [List.length_nil] at hlen
      have : scored = [] := List.eq_nil_of_length_eq_zero hlen.symm
      rw [hscored] at this
      exact h (List.map_eq_nil_iff.mp this)
    by_cases hgood : (List.insertionSort Deterministic.matchScoreDescOrder scored).any
        (fun g => decide (50 ≤ g.matchScore)) = true
    · simp only [hgood, if_true]
      rw [List.any_eq_true] at hgood
      obtain ⟨g, hgmem, hg50⟩ := hgood
      simp only [decide_eq_true_eq] at hg50
      intro hnil
      have hgf : g ∈ (List.insertionSort Deterministic.matchScoreDescOrder scored).filter
          (fun g => decide (20 ≤ g.matchScore)) := by
        rw [List.mem_filter]
        exact ⟨hgmem, by simp only [decide_eq_true_eq]; omega⟩
      rw [hnil] at hgf
      simp at hgf
    · simp only [hgood, if_false]
      exact hne
  · intro userQuery prefs numClients services cache now' hlow
    simp only [searchGrants]
    have hlen : ¬ (grants.length = 0) := by
      intro h0
      exact h (List.eq_nil_of_length_eq_zero h0)
    simp only [hlen, if_false]
    simp only [searchGrantsRank]
    have : filterByThreshold
        (scoreGrantsSemantically userQuery grants prefs numClients services cache now').1 30 =
        [] := by
      simp only [filterByThreshold, List.filter_eq_nil_iff]
      intro s hs
      have := hlow s hs
      simp only [decide_eq_true_eq]
      omega
    rw [this]
    rfl

/-- Witness for C1 (amended): a concrete non-empty candidate set for the
deterministic variant yields a non-empty result, and a concrete run of the
semantic path whose single score is 10 returns zero results. -/
theorem claim_C1_witness :
    Deterministic.searchGrantsRank exampleCriteria [exampleGrant] none exampleDateMs 0 ≠ [] ∧
    (searchGrants "climate projects" [exampleGrant] none 1 exampleLowService [] 0).1 = [] :=
  ⟨(claim_C1 exampleCriteria [exampleGrant] none exampleDateMs 0 (by decide)).1,
   (claim_C1 exampleCriteria [exampleGrant] none exampleDateMs 0 (by decide)).2
      "climate projects" none 1 exampleLowService [] 0 (by decide)⟩

/-! ## C6: interpreter fallback -/

/-- C6: when the interpretation call fails (service error or malformed
JSON), `parseGrantQuery` returns — it is total, never throwing — the
degraded criteria: empty issue areas, null bounds/scope/urgency/deadline/
organization type, empty KPI and exclusion lists, keywords exactly the
lower-cased whitespace-split tokens of the input longer than 3 characters,
confidence fixed at 0.1, and the original query preserved. -/
theorem claim_C6 (userQuery : String) :
    (parseGrantQuery userQuery InterpretOutcome.failed).issueAreas = [] ∧
    (parseGrantQuery userQuery InterpretOutcome.failed).fundingMin = none ∧
    (parseGrantQuery userQuery InterpretOutcome.failed).fundingMax = none ∧
    (parseGrantQuery userQuery InterpretOutcome.failed).scope = none ∧
    (parseGrantQuery userQuery InterpretOutcome.failed).urgency = none ∧
    (parseGrantQuery userQuery InterpretOutcome.failed).deadlineBefore = none ∧
    (parseGrantQuery userQuery InterpretOutcome.failed).organizationType = none ∧
    (parseGrantQuery userQuery InterpretOutcome.failed).kpiPreferences = [] ∧
    (parseGrantQuery userQuery InterpretOutcome.failed).excludeTerms = [] ∧
    (parseGrantQuery userQuery InterpretOutcome.failed).originalQuery = userQuery ∧
    (parseGrantQuery userQuery InterpretOutcome.failed).parseConfidence = 1/10 ∧
    (∀ w, w ∈ (parseGrantQuery userQuery InterpretOutcome.failed).keywords ↔
      (w ∈ splitWs (strToLower userQuery) ∧ 3 < w.length)) := by
  refine ⟨rfl, rfl, rfl, rfl, rfl, rfl, rfl, rfl, rfl, rfl, rfl, ?_⟩
  intro w
  simp [parseGrantQuery, List.mem_filter]

/-- Witness for C6 on a concrete query: the fallback keeps only the tokens
longer than three characters, lower-cased. -/
theorem claim_C6_witness :
    (parseGrantQuery "Find Climate Grants for my NGO" InterpretOutcome.failed).parseConfidence
        = 1/10 ∧
    ("climate" ∈ (parseGrantQuery "Find Climate Grants for my NGO"
        InterpretOutcome.failed).keywords ↔
      ("climate" ∈ splitWs (strToLower "Find Climate Grants for my NGO") ∧
        3 < "climate".length)) :=
  ⟨(claim_C6 "Find Climate Grants for my NGO").2.2.2.2.2.2.2.2.2.2.1,
   (claim_C6 "Find Climate Grants for my NGO").2.2.2.2.2.2.2.2.2.2.2 "climate"⟩

/-! ## C7: preference boost -/

/-- C7: for every aggregated score whose grant (as looked up in the
candidate map) has an issue area case-insensitively containing one of the
stored preferred areas, the boost stage (with a non-empty preferred-area
list) keeps every score in the list (no grant is removed — same length, and
the boosted entry is in the output), leaves the matching entry's score at
least as high as before, strictly higher when it was below 100, never above
100, and appends the preference note to its positive-reasons list. -/
theorem claim_C7 (grants : List Grant) (areas : List String)
    (prefScope : Option String) (prefMin prefMax : Option Int)
    (scores : List GrantScore) (s : GrantScore) (hmem : s ∈ scores)
    (hbound : s.score ≤ 100) (hareas : areas ≠ []) (g : Grant)
    (hg : grantsMapGet grants s.grantId = some g)
    (hmatch : issueAreaMatchesPrefs areas g = true) :
    (applyPreferenceBoost grants
        (some (UserMatchPreferences.mk (some areas) prefScope prefMin prefMax)) scores).length =
      scores.length ∧
    boostScore grants areas s ∈ applyPreferenceBoost grants
      (some (UserMatchPreferences.mk (some areas) prefScope prefMin prefMax)) scores ∧
    s.score ≤ (boostScore grants areas s).score ∧
    (s.score < 100 → s.score < (boostScore grants areas s).score) ∧
    (boostScore grants areas s).score ≤ 100 ∧
    (boostScore grants areas s).whyMatches =
      s.whyMatches ++ ["✨ Matches your profile preferences"] ∧
    (boostScore grants areas s).grantId = s.grantId := by
  have hlen : areas.length > 0 := by
    cases areas with
    | nil => exact absurd rfl hareas
    | cons a as => simp
  have happly : applyPreferenceBoost grants
      (some (UserMatchPreferences.mk (some areas) prefScope prefMin prefMax)) scores =
      scores.map (boostScore grants areas) := by
    simp [applyPreferenceBoost, hlen]
  have hboost : boostScore grants areas s =
      { s with
        score := min 100 (s.score + PREFERENCE_BOOST)
        reasons := s.reasons ++ ["✨ Matches your preferences"]
        whyMatches := s.whyMatches ++ ["✨ Matches your profile preferences"] } := by
    unfold boostScore
    rw [hg]
    simp [hmatch]
  refine ⟨?_, ?_, ?_, ?_, ?_, ?_, ?_⟩
  · rw [happly, List.length_map]
  · rw [happly, List.mem_map]
    exact ⟨s, hmem, rfl⟩
  · rw [hboost]
    simp only [PREFERENCE_BOOST, le_min_iff]
    omega
  · intro hlt
    rw [hboost]
    simp only [PREFERENCE_BOOST, lt_min_iff]
    omega
  · rw [hboost]
    simp only [PREFERENCE_BOOST]
    exact min_le_left _ _
  · rw [hboost]
  · rw [hboost]

/-- Witness for C7: boosting the 40-score entry for the environment grant
with a stored "environment" preference. -/
theorem claim_C7_witness :
    (applyPreferenceBoost [exampleGrant]
        (some (UserMatchPreferences.mk (some ["environment"]) none none none))
        [exampleScore40]).length = 1 ∧
    boostScore [exampleGrant] ["environment"] exampleScore40 ∈
      applyPreferenceBoost [exampleGrant]
        (some (UserMatchPreferences.mk (some ["environment"]) none none none))
        [exampleScore40] ∧
    exampleScore40.score ≤ (boostScore [exampleGrant] ["environment"] exampleScore40).score ∧
    (exampleScore40.score < 100 →
      exampleScore40.score < (boostScore [exampleGrant] ["environment"] exampleScore40).score) ∧
    (boostScore [exampleGrant] ["environment"] exampleScore40).score ≤ 100 ∧
    (boostScore [exampleGrant] ["environment"] exampleScore40).whyMatches =
      exampleScore40.whyMatches ++ ["✨ Matches your profile preferences"] ∧
    (boostScore [exampleGrant] ["environment"] exampleScore40).grantId =
      exampleScore40.grantId :=
  claim_C7 [exampleGrant] ["environment"] none none none [exampleScore40] exampleScore40
    (by decide) (by decide) (by decide) exampleGrant (by decide) (by decide)

/-! ## C8: funding filters -/

/-- Counterexample to C8 as stated: under an active minimum-funding filter
of 1000, the grant with an absent funding ceiling is excluded by the query's
plain SQL `funding_max >= 1000` (NULL fails the comparison), while the
claimed pass condition ("upper bound ≥ minimum **or** absent") would admit
it. -/
theorem claim_C8_counterexample :
    passesMinFundingFilter (some 1000) exampleGrantNoMax = false ∧
    specPassesMinFunding 1000 exampleGrantNoMax = true := by
  decide

/-- C8 (amended): for a positive requested minimum, a grant passes the
minimum-funding filter iff its funding upper bound is **present** and ≥ the
requested minimum — grants with an absent upper bound are excluded; for a
non-positive (JS-falsy or non-positive) requested minimum the filter is
inactive and everything passes.  Symmetrically, for a requested maximum that
is truthy and < 500000, a grant passes iff its funding lower bound is
present and ≤ the maximum; otherwise the filter is inactive. -/
theorem claim_C8 (g : Grant) (m : Int) :
    (0 < m → (passesMinFundingFilter (some m) g = true ↔
      ∃ fm, g.funding_max = some fm ∧ m ≤ fm)) ∧
    (¬ 0 < m → passesMinFundingFilter (some m) g = true) ∧
    passesMinFundingFilter none g = true ∧
    (m ≠ 0 ∧ m < 500000 → (passesMaxFundingFilter (some m) g = true ↔
      ∃ fm, g.funding_min = some fm ∧ fm ≤ m)) ∧
    (¬ (m ≠ 0 ∧ m < 500000) → passesMaxFundingFilter (some m) g = true) ∧
    passesMaxFundingFilter none g = true := by
  refine ⟨?_, ?_, rfl, ?_, ?_, rfl⟩
  · intro hm
    have hcond : m ≠ 0 ∧ 0 < m := ⟨by omega, hm⟩
    simp only [passesMinFundingFilter, if_pos hcond]
    cases hfm : g.funding_max with
    | none =>
      simp
    | some fm =>
      simp [decide_eq_true_eq]
  · intro hm
    have hcond : ¬ (m ≠ 0 ∧ 0 < m) := by
      intro h
      exact hm h.2
    simp only [passesMinFundingFilter, if_neg hcond]
  · intro hcond
    simp only [passesMaxFundingFilter, if_pos hcond]
    cases hfm : g.funding_min with
    | none => simp
    | some fm => simp [decide_eq_true_eq]
  · intro hcond
    simp only [passesMaxFundingFilter, if_neg hcond]

/-- Witness for C8 at concrete inputs: the bounded example grant (ceiling
40000, floor 1000) passes the min-funding filter at 1000 and the max-funding
filter at 45000, in both cases through the present-bound condition. -/
theorem claim_C8_witness :
    (passesMinFundingFilter (some 1000) exampleGrant = true ↔
      ∃ fm, exampleGrant.funding_max = some fm ∧ 1000 ≤ fm) ∧
    (passesMaxFundingFilter (some 45000) exampleGrant = true ↔
      ∃ fm, exampleGrant.funding_min = some fm ∧ fm ≤ 45000) :=
  ⟨(claim_C8 exampleGrant 1000).1 (by decide),
   (claim_C8 exampleGrant 45000).2.2.2.1 (by decide)⟩

/-! ## C9: cache idempotence -/

theorem cacheMapGet_cons (q : String × CacheEntry) (m : List (String × CacheEntry))
    (k : String) :
    cacheMapGet (q :: m) k = if q.1 = k then some q.2 else cacheMapGet m k := by
  by_cases h : q.1 = k
  · simp [cacheMapGet, List.find?, h]
  · simp [cacheMapGet, List.find?, h]

theorem cacheMapSet_cons_ne {q : String × CacheEntry} {k : String}
    (m : List (String × CacheEntry)) (v : CacheEntry) (hqk : q.1 ≠ k) :
    cacheMapSet (q :: m) k v = q :: cacheMapSet m k v := by
  by_cases h : m.any (fun p => decide (p.1 = k)) = true
  · simp [cacheMapSet, hqk, h]
  · simp [cacheMapSet, hqk, h]

theorem cacheMapSet_cons_eq {q : String × CacheEntry} {k : String}
    (m : List (String × CacheEntry)) (v : CacheEntry) (hqk : q.1 = k) :
    cacheMapSet (q :: m) k v =
      (k, v) :: m.map (fun p => if p.1 = k then (k, v) else p) := by
  simp [cacheMapSet, hqk]

theorem cacheMapSet_get_self (m : List (String × CacheEntry)) (k : String) (v : CacheEntry) :
    cacheMapGet (cacheMapSet m k v) k = some v := by
  induction m with
  | nil => simp [cacheMapSet, cacheMapGet, List.find?]
  | cons q m ih =>
    by_cases hqk : q.1 = k
    · rw [cacheMapSet_cons_eq m v hqk, cacheMapGet_cons]
      simp
    · rw [cacheMapSet_cons_ne m v hqk, cacheMapGet_cons]
      simp [hqk, ih]

/-- C9: two invocations of the semantic scorer where the first misses the
cache, the second's query normalizes (lower-case, trim) to the same key with
an equal candidate count, and the second occurs within the TTL of the
first's write, return identical score lists: the second returns exactly the
list the first computed and stored — regardless of the second run's own
service outcomes, preferences or client count. -/
theorem claim_C9 (q1 q2 : String) (grants1 grants2 : List Grant)
    (prefs1 prefs2 : Option UserMatchPreferences) (nc1 nc2 : Nat)
    (svc1 svc2 : Nat → Nat → AttemptResult) (cache0 : List (String × CacheEntry))
    (t0 t1 : Int)
    (hmiss : getCachedResults cache0 q1 grants1.length t0 = none)
    (hkey : strTrim (strToLower q1) = strTrim (strToLower q2))
    (hlen : grants1.length = grants2.length)
    (httl : t1 - t0 < CACHE_TTL_MS) :
    (scoreGrantsSemantically q2 grants2 prefs2 nc2 svc2
        (scoreGrantsSemantically q1 grants1 prefs1 nc1 svc1 cache0 t0).2 t1).1 =
      (scoreGrantsSemantically q1 grants1 prefs1 nc1 svc1 cache0 t0).1 ∧
    (scoreGrantsSemantically q1 grants1 prefs1 nc1 svc1 cache0 t0).1 =
      scoreGrantsSemanticallyCore q1 grants1 prefs1 nc1 svc1 := by
  have hkeys : getCacheKey q2 grants2.length = getCacheKey q1 grants1.length := by
    simp only [getCacheKey, hkey, hlen]
  have hfirst : scoreGrantsSemantically q1 grants1 prefs1 nc1 svc1 cache0 t0 =
      (scoreGrantsSemanticallyCore q1 grants1 prefs1 nc1 svc1,
        cacheResults cache0 q1 grants1.length
          (scoreGrantsSemanticallyCore q1 grants1 prefs1 nc1 svc1) t0) := by
    simp only [scoreGrantsSemantically, hmiss]
  have hhit : getCachedResults
      (cacheResults cache0 q1 grants1.length
        (scoreGrantsSemanticallyCore q1 grants1 prefs1 nc1 svc1) t0)
      q2 grants2.length t1 =
      some (scoreGrantsSemanticallyCore q1 grants1 prefs1 nc1 svc1) := by
    simp only [getCachedResults, cacheResults, hkeys, cacheMapSet_get_self, if_pos httl]
  rw [hfirst]
  constructor
  · simp only [scoreGrantsSemantically, hhit]
  · rfl

/-- Witness for C9: a run over the low-scoring service, repeated 1000 ms
later under a re-capitalized, padded query with a service that would now
answer differently, still returns the stored scores. -/
theorem claim_C9_witness :
    (scoreGrantsSemantically " Climate Projects " [exampleGrantNoMax] none 2
        (fun _ _ => AttemptResult.err "boom")
        (scoreGrantsSemantically "climate projects" [exampleGrant] none 1 exampleLowService
          [] 0).2 1000).1 =
      (scoreGrantsSemantically "climate projects" [exampleGrant] none 1 exampleLowService
        [] 0).1 ∧
    (scoreGrantsSemantically "climate projects" [exampleGrant] none 1 exampleLowService
        [] 0).1 =
      scoreGrantsSemanticallyCore "climate projects" [exampleGrant] none 1 exampleLowService :=
  claim_C9 "climate projects" " Climate Projects " [exampleGrant] [exampleGrantNoMax]
    none none 1 2 exampleLowService (fun _ _ => AttemptResult.err "boom") [] 0 1000
    (by decide) (by decide) (by decide) (by decide)

/-! ## C10: manual filtering invariants -/

theorem jsRoundDiv_le_100 {c t : Nat} (hct : c ≤ t) (ht : 0 < t) :
    jsRoundDiv (c * 100) t ≤ 100 := by
  have hlt : jsRoundDiv (c * 100) t < 101 := by
    rw [jsRoundDiv, Nat.div_lt_iff_lt_mul (by omega : 0 < 2 * t)]
    omega
  omega

theorem manualMatchOne_spec (filters : ManualFilters) (g : Grant) :
    50 ≤ (manualMatchOne filters g).matchScore ∧
      (manualMatchOne filters g).matchScore ≤ 100 ∧
      (manualMatchOne filters g).matchReasons ≠ [] ∧
      (manualMatchOne filters g).whyMatches ≠ [] := by
  have hissue : manualIssueHit filters g = true → jsStrTruthy filters.issueArea = true := by
    intro h
    cases hfa : filters.issueArea with
    | none => simp [manualIssueHit, hfa] at h
    | some fa =>
      simp only [manualIssueHit, hfa, Bool.and_eq_true] at h
      simpa [jsStrTruthy, hfa] using h.1
  have hscope : manualScopeHit filters g = true → jsStrTruthy filters.scope = true := by
    intro h
    cases hfs : filters.scope with
    | none => simp [manualScopeHit, hfs] at h
    | some fs =>
      simp only [manualScopeHit, hfs, Bool.and_eq_true] at h
      simpa [jsStrTruthy, hfs] using h.1
  simp only [manualMatchOne]
  set issueHit := manualIssueHit filters g with hIH
  set scopeHit := manualScopeHit filters g with hSH
  set fundingHit := manualFundingActive filters with hFH
  set matchCount : Nat :=
    (if issueHit then 1 else 0) + (if scopeHit then 1 else 0) + (if fundingHit then 1 else 0)
    with hmc
  set reasons : List String :=
    (if issueHit then ["Matches " ++ (g.issue_area.getD "") ++ " focus"] else []) ++
      (if scopeHit then [(g.scope.getD "") ++ " scope"] else []) ++
      (if fundingHit then ["Within funding range"] else []) with hr
  have hcount : matchCount ≤ manualTotalFilters filters := by
    rw [hmc, manualTotalFilters]
    have h1 : (if issueHit then 1 else 0) ≤ (if jsStrTruthy filters.issueArea then 1 else 0) := by
      by_cases h : issueHit = true
      · rw [if_pos h, if_pos (hissue h)]
      · rw [if_neg h]
        exact Nat.zero_le _
    have h2 : (if scopeHit then 1 else 0) ≤ (if jsStrTruthy filters.scope then 1 else 0) := by
      by_cases h : scopeHit = true
      · rw [if_pos h, if_pos (hscope h)]
      · rw [if_neg h]
        exact Nat.zero_le _
    have h3 : (if fundingHit then 1 else 0) ≤ (if manualFundingActive filters then 1 else 0) := by
      rw [hFH]
    omega
  refine ⟨?_, ?_, ?_, ?_⟩
  · by_cases ht : manualTotalFilters filters > 0
    · simp only [if_pos ht]
      exact le_max_left _ _
    · simp only [if_neg ht]
      simp
  · by_cases ht : manualTotalFilters filters > 0
    · simp only [if_pos ht]
      have : jsRoundDiv (matchCount * 100) (manualTotalFilters filters) ≤ 100 :=
        jsRoundDiv_le_100 hcount ht
      simp only [max_le_iff]
      constructor
      · omega
      · exact le_trans (Int.ofNat_le.mpr this) (by decide)
    · simp only [if_neg ht]
      simp
  · by_cases hrr : reasons.length > 0
    · simp only [if_pos hrr]
      intro hnil
      rw [hnil] at hrr
      simp at hrr
    · simp only [if_neg hrr]
      simp
  · by_cases hrr : reasons.length > 0
    · simp only [if_pos hrr]
      intro hnil
      rw [hnil] at hrr
      simp at hrr
    · simp only [if_neg hrr]
      simp

/-- C10: every grant returned by the deterministic non-LLM path
`filterGrantsManually` has a match score floored at 50 and capped at 100 —
even when no individual filter field matched — and non-empty `matchReasons`
and `whyMatches` lists. -/
theorem claim_C10 (filters : ManualFilters) (table : List Grant) (today : String) :
    ∀ r ∈ filterGrantsManually filters table today,
      50 ≤ r.matchScore ∧ r.matchScore ≤ 100 ∧ r.matchReasons ≠ [] ∧ r.whyMatches ≠ [] := by
  intro r hr
  simp only [filterGrantsManually, List.mem_map] at hr
  obtain ⟨g, _, hg⟩ := hr
  rw [← hg]
  exact manualMatchOne_spec filters g

/-- Witness for C10: the environment filter over the example table returns
the example grant with score 100, reasons present. -/
theorem claim_C10_witness :
    50 ≤ (manualMatchOne (ManualFilters.mk (some "env") none 0 500000)
        exampleGrant).matchScore ∧
      (manualMatchOne (ManualFilters.mk (some "env") none 0 500000)
        exampleGrant).matchScore ≤ 100 ∧
      (manualMatchOne (ManualFilters.mk (some "env") none 0 500000)
        exampleGrant).matchReasons ≠ [] ∧
      (manualMatchOne (ManualFilters.mk (some "env") none 0 500000)
        exampleGrant).whyMatches ≠ [] :=
  claim_C10 (ManualFilters.mk (some "env") none 0 500000) [exampleGrant] "2026-10-11"
    (manualMatchOne (ManualFilters.mk (some "env") none 0 500000) exampleGrant) (by decide)
